import Mathlib

/-!
Verification of the comment pipeline of the repository (comment ingestion,
sentiment classification, automatic replies, orphan cleanup).

The Python modules `src/routes/comment.py`, `src/agents/review.py`,
`src/agents/reply.py` and `src/agents/reply_standalone.py` are embedded
shallowly: the UnQLite record store becomes an association list from string
keys to parsed JSON values, the OpenAI and Facebook clients become explicit
oracles passed in as parameters, and the wall clock becomes a string
parameter.  A `none`/`Option` result models an uncaught Python exception.
-/

set_option maxHeartbeats 1000000

namespace FacebookPipeline

/-- Parsed JSON values, mirroring what `json.loads` produces.  Numbers are
rationals so that the floating confidence values 0.0, 0.5, 1.0 are exact. -/
inductive Json where
  | null : Json
  | bool : Bool → Json
  | num : ℚ → Json
  | str : String → Json
  | arr : List Json → Json
  | obj : List (String × Json) → Json

-- Decidable equality, by hand because the nested `List` occurrences defeat
-- the deriving handler.
mutual
def Json.decEq : (a b : Json) → Decidable (a = b)
  | .null, .null => isTrue rfl
  | .bool a, .bool b =>
      if h : a = b then isTrue (by rw [h]) else isFalse (by simp [h])
  | .num a, .num b =>
      if h : a = b then isTrue (by rw [h]) else isFalse (by simp [h])
  | .str a, .str b =>
      if h : a = b then isTrue (by rw [h]) else isFalse (by simp [h])
  | .arr a, .arr b =>
      match Json.decEqList a b with
      | isTrue h => isTrue (by rw [h])
      | isFalse h => isFalse (by simp [h])
  | .obj a, .obj b =>
      match Json.decEqFields a b with
      | isTrue h => isTrue (by rw [h])
      | isFalse h => isFalse (by simp [h])
  | .null, .bool _ => isFalse nofun
  | .null, .num _ => isFalse nofun
  | .null, .str _ => isFalse nofun
  | .null, .arr _ => isFalse nofun
  | .null, .obj _ => isFalse nofun
  | .bool _, .null => isFalse nofun
  | .bool _, .num _ => isFalse nofun
  | .bool _, .str _ => isFalse nofun
  | .bool _, .arr _ => isFalse nofun
  | .bool _, .obj _ => isFalse nofun
  | .num _, .null => isFalse nofun
  | .num _, .bool _ => isFalse nofun
  | .num _, .str _ => isFalse nofun
  | .num _, .arr _ => isFalse nofun
  | .num _, .obj _ => isFalse nofun
  | .str _, .null => isFalse nofun
  | .str _, .bool _ => isFalse nofun
  | .str _, .num _ => isFalse nofun
  | .str _, .arr _ => isFalse nofun
  | .str _, .obj _ => isFalse nofun
  | .arr _, .null => isFalse nofun
  | .arr _, .bool _ => isFalse nofun
  | .arr _, .num _ => isFalse nofun
  | .arr _, .str _ => isFalse nofun
  | .arr _, .obj _ => isFalse nofun
  | .obj _, .null => isFalse nofun
  | .obj _, .bool _ => isFalse nofun
  | .obj _, .num _ => isFalse nofun
  | .obj _, .str _ => isFalse nofun
  | .obj _, .arr _ => isFalse nofun

def Json.decEqList : (a b : List Json) → Decidable (a = b)
  | [], [] => isTrue rfl
  | [], _ :: _ => isFalse nofun
  | _ :: _, [] => isFalse nofun
  | x :: xs, y :: ys =>
      match Json.decEq x y, Json.decEqList xs ys with
      | isTrue h1, isTrue h2 => isTrue (by rw [h1, h2])
      | isFalse h1, _ => isFalse (by simp [h1])
      | _, isFalse h2 => isFalse (by simp [h2])

def Json.decEqFields : (a b : List (String × Json)) → Decidable (a = b)
  | [], [] => isTrue rfl
  | [], _ :: _ => isFalse nofun
  | _ :: _, [] => isFalse nofun
  | (k, v) :: xs, (k', v') :: ys =>
      match String.decEq k k', Json.decEq v v', Json.decEqFields xs ys with
      | isTrue h0, isTrue h1, isTrue h2 => isTrue (by rw [h0, h1, h2])
      | isFalse h0, _, _ => isFalse (by simp [h0])
      | _, isFalse h1, _ => isFalse (by simp [h1])
      | _, _, isFalse h2 => isFalse (by simp [h2])
end

instance : DecidableEq Json := Json.decEq

namespace Json

/-- Python truthiness of a parsed JSON value (`if x:` in the source). -/
def truthy : Json → Bool
  | .null => false
  | .bool b => b
  | .num n => n ≠ 0
  | .str s => s ≠ ""
  | .arr xs => ¬xs.isEmpty
  | .obj fs => ¬fs.isEmpty

end Json

/-- First binding of a key in a field list (Python `dict` lookup). -/
def jlookup (fs : List (String × Json)) (k : String) : Option Json :=
  (fs.find? (fun p => p.1 = k)).map (fun p => p.2)

/-- Python `d.get(k, default)` on a field list. -/
def jlookupD (fs : List (String × Json)) (k : String) (d : Json) : Json :=
  (jlookup fs k).getD d

/-- Python `k in d` for a dict. -/
def jHasKey (fs : List (String × Json)) (k : String) : Bool :=
  fs.any (fun p => p.1 = k)

/-- Python dict merge `{**base, **override}`: overridden keys take the
override's value; the source only merges dicts with disjoint keys, so only
lookups matter, not field order. -/
def objUnion (base override : List (String × Json)) : List (String × Json) :=
  base.filter (fun p => override.all (fun q => q.1 ≠ p.1)) ++ override

/-- Python `needle in hay` on strings (substring containment). -/
def strContains (needle hay : String) : Bool :=
  decide (needle.toList <:+: hay.toList)

/-- Python `s.startswith(p)`. -/
def strStartsWith (p s : String) : Bool :=
  decide (p.toList <+: s.toList)

/-- Python `s.lower()` (the strings compared in the source are ASCII). -/
def strToLower (s : String) : String :=
  String.mk (s.data.map Char.toLower)

/-- Python `s.strip()`. -/
def strTrim (s : String) : String :=
  String.mk (((s.data.dropWhile Char.isWhitespace).reverse.dropWhile
    Char.isWhitespace).reverse)

-- Python `repr` of a parsed JSON value, as produced by `str(data)` on the
-- result of `json.loads` (escape sequences inside strings are not modelled;
-- no claim depends on the exact text).
mutual
def pyRepr : Json → String
  | .null => "None"
  | .bool true => "True"
  | .bool false => "False"
  | .num q => toString q
  | .str s => "'" ++ s ++ "'"
  | .arr xs => "[" ++ pyReprList xs ++ "]"
  | .obj fs => "\x7b" ++ pyReprFields fs ++ "\x7d"

def pyReprList : List Json → String
  | [] => ""
  | [x] => pyRepr x
  | x :: xs => pyRepr x ++ ", " ++ pyReprList xs

def pyReprFields : List (String × Json) → String
  | [] => ""
  | [(k, v)] => "'" ++ k ++ "': " ++ pyRepr v
  | (k, v) :: fs => "'" ++ k ++ "': " ++ pyRepr v ++ ", " ++ pyReprFields fs
end

/-- Python `str(x)` as used inside f-strings when building record keys. -/
def pyStr : Json → String
  | .str s => s
  | j => pyRepr j

/-- The record store: UnQLite modelled as an association list in scan order,
values already parsed as JSON. -/
abbrev Store := List (String × Json)

namespace Store

/-- `db[key]` read / `key in db` probe. -/
def get? : Store → String → Option Json
  | [], _ => none
  | (k', v) :: rest, k => if k' = k then some v else get? rest k

/-- `db[key] = value`: replace in place, or append a fresh key. -/
def set : Store → String → Json → Store
  | [], k, v => [(k, v)]
  | (k', v') :: rest, k, v =>
      if k' = k then (k, v) :: rest else (k', v') :: set rest k v

/-- Keys are pairwise distinct (UnQLite keys are unique). -/
def uniqKeys (db : Store) : Prop := (db.map Prod.fst).Nodup

end Store

/-- Membership in a Python `set` of JSON values. -/
def jmem (x : Json) (s : List Json) : Bool := s.any (fun y => y == x)

/-! ## Sentiment classifier — `src/agents/review.py` -/

/-- The OpenAI sentiment client of `CommentSentimentAnalyzer`:
`hasClient` is whether `self.client` was initialised, `respond` maps the
analysed comment text to either an exception message or the text returned
by the chat completion (`response.choices[0].message.content`). -/
structure SentimentSvc where
  hasClient : Bool
  respond : String → Except String String

/-- One flattened comment, as appended by
`CommentSentimentAnalyzer.get_all_comments_from_db` (lines 157-168 of
review.py). -/
structure FlatComment where
  key : String
  post_id : Json
  content_id : Json
  comment_id : Json
  message : Json
  author_name : Json
  created_time : Json
  like_count : Json
  original_data : Json
deriving DecidableEq

/-- Flatten the `comments` list of one snapshot value.  Per the source, the
whole snapshot key is wrapped in one `try`, so a malformed element aborts
the rest of that snapshot's list while keeping the comments appended so
far; `comment.get('from', {}).get('name', ...)` raises when `from` is not
a dict. -/
def flattenComments (k : String) (pid cid : Json) : List Json → List FlatComment
  | [] => []
  | Json.obj fs :: rest =>
      match jlookupD fs "from" (Json.obj []) with
      | Json.obj ffs =>
          { key := k
            post_id := pid
            content_id := cid
            comment_id := jlookupD fs "id" Json.null
            message := jlookupD fs "message" (Json.str "")
            author_name := jlookupD ffs "name" (Json.str "Unknown")
            created_time := jlookupD fs "created_time" Json.null
            like_count := jlookupD fs "like_count" (Json.num 0)
            original_data := Json.obj fs } :: flattenComments k pid cid rest
      | _ => []
  | _ :: _ => []

/-- `CommentSentimentAnalyzer.get_all_comments_from_db`: scan every
`comments:*` record and flatten it; non-dict values and values whose
`comments` field is not a list raise inside the per-key `try` and are
skipped. -/
def get_all_comments_from_db : Store → List FlatComment
  | [] => []
  | (k, v) :: rest =>
      (if strStartsWith "comments:" k then
        match v with
        | Json.obj fs =>
            match jlookupD fs "comments" (Json.arr []) with
            | Json.arr xs =>
                flattenComments k (jlookupD fs "post_id" Json.null)
                  (jlookupD fs "content_id" Json.null) xs
            | _ => []
        | _ => []
      else []) ++ get_all_comments_from_db rest

/-- The key `f"sentiment:{comment_key}:{comment_id}"` built by
`store_sentiment_in_db` and `get_sentiment_from_db`. -/
def sentimentKeyOf (commentKey : String) (commentId : Json) : String :=
  "sentiment:" ++ commentKey ++ ":" ++ pyStr commentId

/-- `CommentSentimentAnalyzer.get_sentiment_from_db`. -/
def get_sentiment_from_db (db : Store) (commentKey : String) (commentId : Json) :
    Option Json :=
  db.get? (sentimentKeyOf commentKey commentId)

/-- `CommentSentimentAnalyzer.store_sentiment_in_db`. -/
def store_sentiment_in_db (db : Store) (commentKey : String) (commentId : Json)
    (data : Json) : Store :=
  db.set (sentimentKeyOf commentKey commentId) data

/-- `CommentSentimentAnalyzer.analyze_sentiment`.  Returns the result dict
together with the list of texts actually sent to the external service
(empty when the call was short-circuited); `none` models the uncaught
`AttributeError` that `comment_text.strip()` raises on a truthy non-string
(the client check comes first, and `not comment_text` short-circuits for
falsy values such as the empty list). -/
def analyze_sentiment (svc : SentimentSvc) (now : String) (message : Json) :
    Option (Json × List String) :=
  if svc.hasClient = false then
    some (Json.obj [("sentiment", Json.str "neutral"), ("confidence", Json.num 0),
      ("error", Json.str "OpenAI client not initialized")], [])
  else
    match message with
    | Json.str m =>
        if m = "" ∨ strTrim m = "" then
          some (Json.obj [("sentiment", Json.str "neutral"),
            ("confidence", Json.num 0), ("error", Json.str "Empty comment")], [])
        else
          match svc.respond m with
          | Except.error e =>
              some (Json.obj [("sentiment", Json.str "neutral"),
                ("confidence", Json.num 0), ("error", Json.str e),
                ("analyzed_at", Json.str now)], [m])
          | Except.ok resp =>
              let s := strToLower (strTrim resp)
              if s = "positive" ∨ s = "negative" ∨ s = "neutral" then
                some (Json.obj [("sentiment", Json.str s),
                  ("confidence", Json.num 1), ("analyzed_at", Json.str now)], [m])
              else
                some (Json.obj [("sentiment", Json.str "neutral"),
                  ("confidence", Json.num (1 / 2)), ("analyzed_at", Json.str now),
                  ("note", Json.str ("Unexpected response: " ++ s))], [m])
    | Json.arr [] =>
        some (Json.obj [("sentiment", Json.str "neutral"),
          ("confidence", Json.num 0), ("error", Json.str "Empty comment")], [])
    | _ => none

/-- Tallies of `analyze_all_comments` (`stats` dict in the source). -/
structure AStats where
  total : Nat
  analyzed : Nat
  skipped : Nat
  errors : Nat
  pos : Nat
  neg : Nat
  neu : Nat
deriving DecidableEq

def AStats.zero : AStats := ⟨0, 0, 0, 0, 0, 0, 0⟩

/-- Trace of one `analyze_all_comments` run, mirroring its console output:
which texts were sent to the service, and which sentiment keys were
counted analyzed / skipped / errored. -/
structure ALogs where
  calls : List String
  analyzedKeys : List String
  skippedKeys : List String
  errorKeys : List String
deriving DecidableEq

def ALogs.empty : ALogs := ⟨[], [], [], []⟩

/-- The body of the `for` loop of `analyze_all_comments` (lines 269-311),
threading the store, the stats and the trace.  `none` in the third
component records an uncaught exception: slicing a non-sliceable message
in the progress print, `.get` on a truthy non-dict stored sentiment, a
`KeyError` on `stats["sentiments"][...]`, or the `analyze_sentiment`
crashes modelled above.  The store and trace reached at the crash point
are preserved. -/
def analyzeOne (svc : SentimentSvc) (now : String) (c : FlatComment)
    (db : Store) (st : AStats) (lg : ALogs) (key : String) :
    Option (Store × AStats × ALogs) :=
  match c.message with
  | Json.str _ => analyzeAfterPrint svc now c db st lg key
  | Json.arr _ => analyzeAfterPrint svc now c db st lg key
  | _ => none
where
  /-- After the (crash-prone) progress print: service call, error tally or
  store write; reused by every analyze branch. -/
  analyzeAfterPrint (svc : SentimentSvc) (now : String) (c : FlatComment)
      (db : Store) (st : AStats) (lg : ALogs) (key : String) :
      Option (Store × AStats × ALogs) :=
    match analyze_sentiment svc now c.message with
    | none => none
    | some (r, calls) =>
        let lg := { lg with calls := lg.calls ++ calls }
        match r with
        | Json.obj rfs =>
            if jHasKey rfs "error" then
              some (db, { st with errors := st.errors + 1 },
                { lg with errorKeys := lg.errorKeys ++ [key] })
            else
              let storage := Json.obj (objUnion
                [("comment_id", c.comment_id), ("comment_key", Json.str c.key),
                 ("message", c.message), ("author_name", c.author_name),
                 ("created_time", c.created_time)] rfs)
              let db' := store_sentiment_in_db db c.key c.comment_id storage
              let lab := jlookupD rfs "sentiment" Json.null
              if lab = Json.str "positive" then
                some (db', { st with analyzed := st.analyzed + 1, pos := st.pos + 1 },
                  { lg with analyzedKeys := lg.analyzedKeys ++ [key] })
              else if lab = Json.str "negative" then
                some (db', { st with analyzed := st.analyzed + 1, neg := st.neg + 1 },
                  { lg with analyzedKeys := lg.analyzedKeys ++ [key] })
              else if lab = Json.str "neutral" then
                some (db', { st with analyzed := st.analyzed + 1, neu := st.neu + 1 },
                  { lg with analyzedKeys := lg.analyzedKeys ++ [key] })
              else none
        | _ => none

def analyzeLoop (svc : SentimentSvc) (now : String) (force : Bool) :
    List FlatComment → Store → AStats → ALogs → Store × ALogs × Option AStats
  | [], db, st, lg => (db, lg, some st)
  | c :: rest, db, st, lg =>
      let key := sentimentKeyOf c.key c.comment_id
      let skipOrAnalyze : Store × ALogs × Option AStats :=
        match db.get? key with
        | some v =>
            if v.truthy ∧ force = false then
              match v with
              | Json.obj fs =>
                  let lab := jlookupD fs "sentiment" (Json.str "neutral")
                  if lab = Json.str "positive" then
                    analyzeLoop svc now force rest db
                      { st with skipped := st.skipped + 1, pos := st.pos + 1 }
                      { lg with skippedKeys := lg.skippedKeys ++ [key] }
                  else if lab = Json.str "negative" then
                    analyzeLoop svc now force rest db
                      { st with skipped := st.skipped + 1, neg := st.neg + 1 }
                      { lg with skippedKeys := lg.skippedKeys ++ [key] }
                  else if lab = Json.str "neutral" then
                    analyzeLoop svc now force rest db
                      { st with skipped := st.skipped + 1, neu := st.neu + 1 }
                      { lg with skippedKeys := lg.skippedKeys ++ [key] }
                  else (db, lg, none)
              | _ => (db, lg, none)
            else
              match analyzeOne svc now c db st lg key with
              | none => (db, lg, none)
              | some (db', st', lg') => analyzeLoop svc now force rest db' st' lg'
        | none =>
            match analyzeOne svc now c db st lg key with
            | none => (db, lg, none)
            | some (db', st', lg') => analyzeLoop svc now force rest db' st' lg'
      skipOrAnalyze

/-- `CommentSentimentAnalyzer.analyze_all_comments`. -/
def analyze_all_comments (svc : SentimentSvc) (now : String) (db : Store)
    (force : Bool) : Store × ALogs × Option AStats :=
  let comments := get_all_comments_from_db db
  if comments.isEmpty then (db, ALogs.empty, some AStats.zero)
  else
    analyzeLoop svc now force comments db
      { AStats.zero with total := comments.length } ALogs.empty

/-! ## Reply engine — `src/agents/reply.py` -/

/-- Environment of one `CommentReplyAgent.reply_to_comments` run: the OpenAI
client (`classify` maps the comment text to an exception, to `ok none` when
`json.loads` of the response raises `JSONDecodeError`, or to the parsed
JSON), the Facebook apps list loaded from creds (always a list of dicts),
the Facebook reply endpoint (`fb` maps comment id and reply text to an
exception or the parsed HTTP response) and the wall clock. -/
structure ReplyEnv where
  hasClient : Bool
  classify : Json → Except String (Option Json)
  apps : List (List (String × Json))
  fb : Json → Json → Except String Json
  now : String

/-- `CommentReplyAgent.classify_comment_type` (reply.py lines 60-141).
`none` models the uncaught `AttributeError` of `comment_text.strip()` on a
truthy non-string.  The `str(e)` of exceptions raised while validating a
non-dict parsed response is modelled as `"TypeError"` (no claim depends on
its text). -/
def classify_comment_type (env : ReplyEnv) (text : Json) : Option Json :=
  if env.hasClient = false then
    some (Json.obj [("type", Json.str "general"),
      ("error", Json.str "OpenAI client not initialized")])
  else if text.truthy = false then
    some (Json.obj [("type", Json.str "general"), ("error", Json.str "Empty comment")])
  else
    match text with
    | Json.str m =>
        if strTrim m = "" then
          some (Json.obj [("type", Json.str "general"),
            ("error", Json.str "Empty comment")])
        else
          match env.classify text with
          | Except.error e =>
              some (Json.obj [("type", Json.str "general"),
                ("reply", Json.str "Thank you for your comment! 😊"),
                ("error", Json.str e), ("generated_at", Json.str env.now)])
          | Except.ok none =>
              some (Json.obj [("type", Json.str "general"),
                ("reply", Json.str "Thank you for your comment! 😊"),
                ("error", Json.str "JSON parsing failed"),
                ("generated_at", Json.str env.now)])
          | Except.ok (some j) =>
              match j with
              | Json.obj fs =>
                  if jHasKey fs "type" ∧ jHasKey fs "reply" then
                    some (Json.obj [("type", jlookupD fs "type" Json.null),
                      ("reply", jlookupD fs "reply" Json.null),
                      ("generated_at", Json.str env.now)])
                  else
                    some (Json.obj [("type", Json.str "general"),
                      ("reply", Json.str "Thank you for your comment! 😊"),
                      ("error", Json.str "Invalid response format"),
                      ("generated_at", Json.str env.now)])
              | _ =>
                  some (Json.obj [("type", Json.str "general"),
                    ("reply", Json.str "Thank you for your comment! 😊"),
                    ("error", Json.str "TypeError"),
                    ("generated_at", Json.str env.now)])
    | _ => none

/-- `CommentReplyAgent.is_comment_not_found_error` (reply.py lines 354-386).
`none` models the uncaught `AttributeError` of `.lower()` when the
`message` entry is present but not a string. -/
def is_comment_not_found_error (error_result : Json) : Option Bool :=
  match error_result with
  | Json.obj ofs =>
      match jlookupD ofs "error" Json.null with
      | Json.obj fs =>
          match jlookupD fs "message" (Json.str "") with
          | Json.str m =>
              let msg := strToLower m
              let code := jlookupD fs "code" Json.null
              let subcode := jlookupD fs "error_subcode" Json.null
              some (strContains "does not exist" msg ∨
                strContains "cannot be loaded" msg ∨
                strContains "missing permissions" msg ∨
                strContains "does not support this operation" msg ∨
                code = Json.num 100 ∨ code = Json.num 803 ∨
                subcode = Json.num 33)
          | _ => none
      | _ => some false
  | _ => some false

/-- `CommentReplyAgent.delete_comment_from_db` (reply.py lines 287-352):
collect every key whose decoded string contains the comment id, delete
them, and return the new store with the list of deleted keys (the Python
function returns `len(deleted_keys) > 0`).  A non-string id makes
`comment_id in key_str` raise inside the per-key `try`, so nothing
matches. -/
def delete_comment_from_db (db : Store) (commentId : Json) : Store × List String :=
  match commentId with
  | Json.str s =>
      ((db.filter fun p => strContains s p.1 = false),
       ((db.map Prod.fst).filter fun k => strContains s k))
  | _ => (db, [])

/-- The key `f"reply:{comment_key}:{comment_id}"` of
`CommentReplyAgent.store_reply_in_db`. -/
def replyKeyOf (commentKey commentId : Json) : String :=
  "reply:" ++ pyStr commentKey ++ ":" ++ pyStr commentId

/-- `CommentReplyAgent.store_reply_in_db`. -/
def store_reply_in_db (db : Store) (commentKey commentId : Json) (data : Json) :
    Store :=
  db.set (replyKeyOf commentKey commentId) data

/-- Result of `CommentReplyAgent.post_reply_to_facebook`: the
`{'success': ..., ...}` dict collapsed to its two shapes. -/
inductive PostRes where
  | success (reply_id : Json)
  | failure (error : Json)
deriving DecidableEq

/-- `CommentReplyAgent.post_reply_to_facebook` (reply.py lines 249-285).
A non-dict HTTP response makes `'error' in result` / `result.get('id')`
raise inside the `try`, giving the `str(e)` failure, modelled as
`"TypeError"`. -/
def post_reply_to_facebook (env : ReplyEnv) (commentId replyText : Json) :
    PostRes :=
  match env.apps with
  | [] => PostRes.failure (Json.str "No Facebook apps configured")
  | app :: _ =>
      if (jlookupD app "password" Json.null).truthy = false then
        PostRes.failure (Json.str "No access token available")
      else
        match env.fb commentId replyText with
        | Except.error e => PostRes.failure (Json.str e)
        | Except.ok result =>
            match result with
            | Json.obj rfs =>
                if jHasKey rfs "error" then
                  match jlookupD rfs "error" Json.null with
                  | Json.obj efs =>
                      PostRes.failure
                        (jlookupD efs "message" (Json.str "Unknown Facebook API error"))
                  | _ => PostRes.failure (Json.str "TypeError")
                else PostRes.success (jlookupD rfs "id" Json.null)
            | _ => PostRes.failure (Json.str "TypeError")

/-- One candidate built by `get_comments_to_reply` (reply.py lines 228-237);
the redundant `sentiment_data` copy is not kept. -/
structure Candidate where
  comment_id : Json
  comment_key : Json
  message : Json
  author_name : Json
  created_time : Json
  sentiment : Json
deriving DecidableEq

/-- First pass of `get_comments_to_reply`: the set of `comment_id` values of
all `reply:*` records (only truthy ids are added, and non-dict values
raise inside the per-key `try` and are skipped). -/
def repliedSet : Store → List Json
  | [] => []
  | (k, v) :: rest =>
      (if strStartsWith "reply:" k then
        match v with
        | Json.obj fs =>
            let cid := jlookupD fs "comment_id" Json.null
            if cid.truthy then [cid] else []
        | _ => []
      else []) ++ repliedSet rest

/-- Second pass of `get_comments_to_reply`: every `sentiment:*` record whose
sentiment (default `'neutral'`) is positive or neutral and whose
`comment_id` is not in the replied set becomes a candidate. -/
def candidatesOf (replied : List Json) : Store → List Candidate
  | [] => []
  | (k, v) :: rest =>
      (if strStartsWith "sentiment:" k then
        match v with
        | Json.obj fs =>
            let s := jlookupD fs "sentiment" (Json.str "neutral")
            let cid := jlookupD fs "comment_id" Json.null
            if (s = Json.str "positive" ∨ s = Json.str "neutral") ∧
                jmem cid replied = false then
              [{ comment_id := cid
                 comment_key := jlookupD fs "comment_key" Json.null
                 message := jlookupD fs "message" (Json.str "")
                 author_name := jlookupD fs "author_name" (Json.str "Unknown")
                 created_time := jlookupD fs "created_time" Json.null
                 sentiment := s }]
            else []
        | _ => []
      else []) ++ candidatesOf replied rest

/-- `CommentReplyAgent.get_comments_to_reply`. -/
def get_comments_to_reply (db : Store) : List Candidate :=
  candidatesOf (repliedSet db) db

/-- Tallies of `reply_to_comments` (`stats` dict in the source). -/
structure RStats where
  total : Nat
  processed : Nat
  replied : Nat
  skipped : Nat
  cleaned_up : Nat
  errors : Nat
  q : Nat
  comp : Nat
  gen : Nat
deriving DecidableEq

def RStats.zero : RStats := ⟨0, 0, 0, 0, 0, 0, 0, 0, 0⟩

/-- Per-candidate outcome, mirroring the console trace of the loop body of
`reply_to_comments`. -/
inductive StepTag where
  | draftError
  | repliedOk
  | cleanedUp
  | cleanupFailed
  | postError
deriving DecidableEq

/-- The outcomes counted into `stats["errors"]`. -/
def StepTag.isFailure : StepTag → Bool
  | .draftError => true
  | .cleanupFailed => true
  | .postError => true
  | _ => false

/-- The body of the `for` loop of `reply_to_comments` (reply.py lines
451-516), threading the store, the stats and the outcome trace; `none` in
the stats component records an uncaught exception (slicing a non-sliceable
message in the progress print, the `classify_comment_type` /
`is_comment_not_found_error` crashes above, or the `KeyError` of
`stats["reply_types"][reply_type]` for a type outside question /
compliment / general — the latter after the reply record was already
stored). -/
def replyLoop (env : ReplyEnv) :
    List Candidate → Store → RStats → List StepTag →
    Store × List StepTag × Option RStats
  | [], db, st, lg => (db, lg, some st)
  | c :: rest, db, st, lg =>
      let printable : Bool :=
        match c.message with
        | Json.str _ => true
        | Json.arr _ => true
        | _ => false
      if printable = false then (db, lg, none)
      else
        match classify_comment_type env c.message with
        | none => (db, lg, none)
        | some ri =>
            match ri with
            | Json.obj rifs =>
                if jHasKey rifs "error" then
                  replyLoop env rest db { st with errors := st.errors + 1 }
                    (lg ++ [StepTag.draftError])
                else
                  let rtype := jlookupD rifs "type" (Json.str "general")
                  let rtext := jlookupD rifs "reply"
                    (Json.str "Thank you for your comment! 😊")
                  match post_reply_to_facebook env c.comment_id rtext with
                  | PostRes.success rid =>
                      let storage := Json.obj (objUnion
                        [("comment_id", c.comment_id),
                         ("comment_key", c.comment_key),
                         ("original_message", c.message),
                         ("author_name", c.author_name),
                         ("sentiment", c.sentiment),
                         ("reply_type", rtype), ("reply_text", rtext),
                         ("facebook_reply_id", rid),
                         ("replied_at", Json.str env.now)] rifs)
                      let db' := store_reply_in_db db c.comment_key c.comment_id
                        storage
                      if rtype = Json.str "question" then
                        replyLoop env rest db'
                          { st with replied := st.replied + 1, q := st.q + 1 }
                          (lg ++ [StepTag.repliedOk])
                      else if rtype = Json.str "compliment" then
                        replyLoop env rest db'
                          { st with replied := st.replied + 1, comp := st.comp + 1 }
                          (lg ++ [StepTag.repliedOk])
                      else if rtype = Json.str "general" then
                        replyLoop env rest db'
                          { st with replied := st.replied + 1, gen := st.gen + 1 }
                          (lg ++ [StepTag.repliedOk])
                      else (db', lg, none)
                  | PostRes.failure err =>
                      match is_comment_not_found_error
                          (Json.obj [("error", Json.obj [("message", err)])]) with
                      | none => (db, lg, none)
                      | some true =>
                          let (db', deleted) := delete_comment_from_db db c.comment_id
                          if deleted.length > 0 then
                            replyLoop env rest db'
                              { st with cleaned_up := st.cleaned_up + 1 }
                              (lg ++ [StepTag.cleanedUp])
                          else
                            replyLoop env rest db'
                              { st with errors := st.errors + 1 }
                              (lg ++ [StepTag.cleanupFailed])
                      | some false =>
                          replyLoop env rest db { st with errors := st.errors + 1 }
                            (lg ++ [StepTag.postError])
            | _ => (db, lg, none)

/-- `CommentReplyAgent.reply_to_comments` (reply.py lines 415-531). -/
def reply_to_comments (env : ReplyEnv) (db : Store) (maxReplies : Nat) :
    Store × List StepTag × Option RStats :=
  let comments := get_comments_to_reply db
  if comments.isEmpty then (db, [], some RStats.zero)
  else
    replyLoop env (comments.take maxReplies) db
      { RStats.zero with
          total := comments.length
          processed := (comments.take maxReplies).length } []

/-! ## Standalone reply engine — `src/agents/reply_standalone.py` -/

/-- Environment of one standalone `reply_to_comments` run.  `fbPost` maps
comment id and reply text to an exception or to the pair (status code is
200, parsed response body); `ts` is `int(datetime.now().timestamp())`. -/
structure SaEnv where
  hasClient : Bool
  classify : Json → Except String (Option Json)
  apps : List (List (String × Json))
  fbPost : Json → Json → Except String (Bool × Json)
  ts : Nat
  now : String

/-- Standalone `classify_comment_type` (reply_standalone.py lines 109-156):
no empty-input check; the parsed service JSON is returned as-is, and both
an API exception and a `json.loads` failure fall back to the fixed
`unknown` acknowledgment. -/
def classify_comment_type_standalone (env : SaEnv) (text : Json) : Json :=
  if env.hasClient = false then
    Json.obj [("type", Json.str "unknown"), ("reply", Json.str "OpenAI not available")]
  else
    match env.classify text with
    | Except.error _ =>
        Json.obj [("type", Json.str "unknown"),
          ("reply", Json.str "Thank you for your comment!")]
    | Except.ok none =>
        Json.obj [("type", Json.str "unknown"),
          ("reply", Json.str "Thank you for your comment!")]
    | Except.ok (some j) => j

/-- Standalone `is_comment_not_found_error` (reply_standalone.py lines
201-212).  `none` models the uncaught exceptions of `.get` on a non-dict
`error` entry or `.lower()` on a non-string message. -/
def is_comment_not_found_error_standalone (resp : Json) : Option Bool :=
  match resp with
  | Json.obj rfs =>
      match jlookupD rfs "error" (Json.obj []) with
      | Json.obj fs =>
          if jlookupD fs "code" Json.null = Json.num 100 ∧
              jlookupD fs "error_subcode" Json.null = Json.num 33 then
            some true
          else
            match jlookupD fs "message" (Json.str "") with
            | Json.str m =>
                some (strContains "comment does not exist" (strToLower m) ∨
                  strContains "object does not exist" (strToLower m))
            | _ => none
      | _ => none
  | _ => some false

/-- Value-side match of the standalone `delete_comment_from_db` (lines
244-267): a scanned record matches when its parsed value has `id` or
`comment_id` equal to the target, or the target id occurs in `str(data)`
(a non-string target makes the `in` check raise inside the inner `try`,
so it does not match); non-dict values never match because `.get`
raises first. -/
def saDeleteMatch (commentId : Json) (v : Json) : Bool :=
  match v with
  | Json.obj fs =>
      (jlookupD fs "id" Json.null == commentId) ||
      (jlookupD fs "comment_id" Json.null == commentId) ||
      (match commentId with
       | Json.str s => strContains s (pyRepr (Json.obj fs))
       | _ => false)
  | _ => false

/-- Standalone `delete_comment_from_db` (reply_standalone.py lines 214-291):
only keys under `comment:`, `sentiment:` or `reply:` are candidates, and a
candidate is deleted when its value matches; returns the new store and the
deleted count. -/
def delete_comment_from_db_standalone (db : Store) (commentId : Json) :
    Store × Nat :=
  let hit : String × Json → Bool := fun p =>
    (strStartsWith "comment:" p.1 ∨ strStartsWith "sentiment:" p.1 ∨
      strStartsWith "reply:" p.1) ∧ saDeleteMatch commentId p.2
  ((db.filter fun p => hit p = false), (db.filter hit).length)

/-- Standalone `post_reply_to_facebook` (reply_standalone.py lines 158-199):
returns the possibly-cleaned store and the success flag.  An exception
anywhere in the `try` (including the crash-prone not-found predicate)
yields `False` without touching the store. -/
def post_reply_to_facebook_standalone (env : SaEnv) (db : Store)
    (commentId replyText : Json) : Store × Bool :=
  match env.apps with
  | [] => (db, false)
  | app :: _ =>
      if (jlookupD app "access_token" Json.null).truthy = false then (db, false)
      else
        match env.fbPost commentId replyText with
        | Except.error _ => (db, false)
        | Except.ok (statusOk, body) =>
            let hasId : Option Bool :=
              match body with
              | Json.obj fs => some (jHasKey fs "id")
              | Json.arr xs => some (xs.any (fun y => y == Json.str "id"))
              | Json.str s => some (strContains "id" s)
              | _ => none
            match statusOk, hasId with
            | true, some true => (db, true)
            | true, none => (db, false)
            | _, _ =>
                match is_comment_not_found_error_standalone body with
                | some true => ((delete_comment_from_db_standalone db commentId).1, false)
                | some false => (db, false)
                | none => (db, false)

/-- Per-comment data kept in the `sentiment_data` dict of the standalone
`reply_to_comments` (lines 346-350). -/
structure SaData where
  sentiment : Json
  message : Json
  author_name : Json
deriving DecidableEq

/-- Python dict update: replace the value in place (keeping the position of
the first insertion), or append a new key at the end. -/
def dictUpsert (m : List (Json × SaData)) (k : Json) (v : SaData) :
    List (Json × SaData) :=
  if m.any (fun p => p.1 = k) then
    m.map (fun p => if p.1 = k then (k, v) else p)
  else m ++ [(k, v)]

/-- The scan of the standalone `reply_to_comments` (lines 311-365) building
`sentiment_data` (only records with truthy `comment_id` and truthy
`sentiment`; a later store entry overwrites an earlier binding) and
`replied_comments`, iterating the store forward with accumulators. -/
def saScanGo : Store → List (Json × SaData) → List Json →
    List (Json × SaData) × List Json
  | [], m, r => (m, r)
  | (k, v) :: rest, m, r =>
      if strStartsWith "sentiment:" k then
        match v with
        | Json.obj fs =>
            let cid := jlookupD fs "comment_id" Json.null
            let s := jlookupD fs "sentiment" Json.null
            if cid.truthy ∧ s.truthy then
              saScanGo rest (dictUpsert m cid
                { sentiment := s, message := jlookupD fs "message" (Json.str ""),
                  author_name := jlookupD fs "author_name" (Json.str "Unknown") }) r
            else saScanGo rest m r
        | _ => saScanGo rest m r
      else if strStartsWith "reply:" k then
        match v with
        | Json.obj fs =>
            let cid := jlookupD fs "comment_id" Json.null
            if cid.truthy then saScanGo rest m (r ++ [cid])
            else saScanGo rest m r
        | _ => saScanGo rest m r
      else saScanGo rest m r

def saScan (db : Store) : List (Json × SaData) × List Json :=
  saScanGo db [] []

/-- The `for comment_id, data in sentiment_data.items()` loop of the
standalone `reply_to_comments` (lines 370-427). -/
def saLoop (env : SaEnv) (replied : List Json) (maxReplies : Nat) :
    List (Json × SaData) → Store → Nat → Store × Nat
  | [], db, posted => (db, posted)
  | (cid, d) :: rest, db, posted =>
      if maxReplies ≤ posted then (db, posted)
      else if jmem cid replied then saLoop env replied maxReplies rest db posted
      else if (d.sentiment = Json.str "positive" ∨
          d.sentiment = Json.str "neutral") = false then
        saLoop env replied maxReplies rest db posted
      else if d.message.truthy = false then
        saLoop env replied maxReplies rest db posted
      else
        let r := classify_comment_type_standalone env d.message
        let ctype := (match r with
          | Json.obj fs => jlookupD fs "type" (Json.str "unknown")
          | _ => Json.str "unknown")
        let rtext := (match r with
          | Json.obj fs => jlookupD fs "reply" (Json.str "")
          | _ => Json.str "")
        if ctype = Json.str "negative" then
          saLoop env replied maxReplies rest db posted
        else if rtext.truthy = false then
          saLoop env replied maxReplies rest db posted
        else
          match post_reply_to_facebook_standalone env db cid rtext with
          | (db', true) =>
              let record := Json.obj
                [("comment_id", cid), ("reply_text", rtext),
                 ("comment_type", ctype), ("sentiment", d.sentiment),
                 ("author_name", d.author_name), ("original_message", d.message),
                 ("timestamp", Json.str env.now)]
              let db'' := db'.set
                ("reply:" ++ pyStr cid ++ ":" ++ toString env.ts) record
              saLoop env replied maxReplies rest db'' (posted + 1)
          | (db', false) => saLoop env replied maxReplies rest db' posted

/-- Standalone `reply_to_comments` (reply_standalone.py lines 293-435),
returning the final store and the number of replies posted. -/
def reply_to_comments_standalone (env : SaEnv) (db : Store) (maxReplies : Nat) :
    Store × Nat :=
  if env.hasClient = false then (db, 0)
  else
    let (m, replied) := saScan db
    saLoop env replied maxReplies m db 0

/-! ## Comment ingestion — `src/routes/comment.py` -/

/-- Python `len` of a parsed JSON value (`TypeError` on sizeless values). -/
def pyLen : Json → Option Nat
  | Json.str s => some s.length
  | Json.arr xs => some xs.length
  | Json.obj fs => some fs.length
  | _ => none

/-- `store_comments_in_db` (comment.py lines 150-177): write the snapshot
record wholesale under `comments:{content_id}:{post_id}`; `len` raising on
a sizeless comments payload is caught and reported as a failed store,
leaving the store untouched. -/
def store_comments_in_db (db : Store) (postId contentId : String)
    (commentsData : Json) (now : String) : Store × Bool :=
  match pyLen commentsData with
  | none => (db, false)
  | some n =>
      (db.set ("comments:" ++ contentId ++ ":" ++ postId)
        (Json.obj [("post_id", Json.str postId), ("content_id", Json.str contentId),
          ("comments", commentsData), ("last_updated", Json.str now),
          ("total_comments", Json.num n)]), true)

/-- The storage part of the `fetch_comments_from_facebook` route (comment.py
lines 259-279), after credentials were resolved: `remote` is the parsed
Graph API response.  On an error envelope the route fails without touching
storage; otherwise `data` (default `[]`) is stored only when truthy.
Returns the store and whether the route reported success. -/
def fetch_comments_route (db : Store) (contentId postId : String)
    (remote : Json) (now : String) : Store × Bool :=
  match remote with
  | Json.obj rfs =>
      if jHasKey rfs "error" then (db, false)
      else
        let commentsData := jlookupD rfs "data" (Json.arr [])
        if commentsData.truthy then
          store_comments_in_db db postId contentId commentsData now
        else (db, true)
  | _ => (db, false)

/-! ## The spec's object-missing predicate (for comparison with the code) -/

/-- Modelled from the spec's words, for refutation only: “"object missing" ⇔
`(code=100, subcode=33)` or message containing "does not exist" / "cannot
be loaded"”. -/
def spec_object_missing (code subcode : Json) (message : String) : Bool :=
  (code = Json.num 100 ∧ subcode = Json.num 33) ∨
  strContains "does not exist" (strToLower message) ∨
  strContains "cannot be loaded" (strToLower message)

/-! ## Derived notions used by the properties -/

-- Whether a record's parsed value mentions a comment id in any of its
-- strings (the spec's "record referencing the id", substring fallback
-- included).
mutual
def jsonMentions (id : String) : Json → Bool
  | .str s => strContains id s
  | .arr xs => jsonMentionsList id xs
  | .obj fs => jsonMentionsFields id fs
  | _ => false

def jsonMentionsList (id : String) : List Json → Bool
  | [] => false
  | x :: xs => jsonMentions id x || jsonMentionsList id xs

def jsonMentionsFields (id : String) : List (String × Json) → Bool
  | [] => false
  | (k, v) :: fs => strContains id k || jsonMentions id v || jsonMentionsFields id fs
end

/-- A scanned record references a comment id when the id occurs in its key
or anywhere in its value. -/
def referencesId (id : String) (p : String × Json) : Bool :=
  strContains id p.1 || jsonMentions id p.2

/-- A store entry is a Reply Record whose `comment_id` field is the given
id. -/
def isReplyRecFor (cid : Json) (p : String × Json) : Bool :=
  strStartsWith "reply:" p.1 &&
    (match p.2 with
     | Json.obj fs => jlookupD fs "comment_id" Json.null == cid
     | _ => false)

/-- A store entry is a Sentiment Record whose `comment_id` field is the
given id. -/
def isSentRecFor (cid : Json) (p : String × Json) : Bool :=
  strStartsWith "sentiment:" p.1 &&
    (match p.2 with
     | Json.obj fs => jlookupD fs "comment_id" Json.null == cid
     | _ => false)

/-- Number of live Reply Records for a comment id. -/
def replyCountFor (db : Store) (cid : Json) : Nat :=
  (db.filter (isReplyRecFor cid)).length

/-- Number of live Sentiment Records for a comment id. -/
def sentCountFor (db : Store) (cid : Json) : Nat :=
  (db.filter (isSentRecFor cid)).length

/-- The comment has a well-formed Sentiment Record stored under its key: a
non-empty dict whose `sentiment` entry — defaulting to `neutral` as in
`existing_sentiment.get("sentiment", "neutral")` — is one of the three
valid labels (the shape `store_sentiment_in_db` always writes). -/
def ValidSentRecord (db : Store) (c : FlatComment) : Prop :=
  ∃ fs, db.get? (sentimentKeyOf c.key c.comment_id) = some (Json.obj fs) ∧
    fs ≠ [] ∧
    (jlookupD fs "sentiment" (Json.str "neutral") = Json.str "positive" ∨
     jlookupD fs "sentiment" (Json.str "neutral") = Json.str "negative" ∨
     jlookupD fs "sentiment" (Json.str "neutral") = Json.str "neutral")

/-- One iteration of the `analyze_all_comments` loop, split out of
`analyzeLoop` for reasoning (the `analyzeLoop_cons` lemma below proves the
loop is this step followed by the loop on the rest). -/
def analyzeStep1 (svc : SentimentSvc) (now : String) (force : Bool)
    (c : FlatComment) (db : Store) (st : AStats) (lg : ALogs) :
    Option (Store × AStats × ALogs) :=
  let key := sentimentKeyOf c.key c.comment_id
  match db.get? key with
  | some v =>
      if v.truthy ∧ force = false then
        match v with
        | Json.obj fs =>
            let lab := jlookupD fs "sentiment" (Json.str "neutral")
            if lab = Json.str "positive" then
              some (db, { st with skipped := st.skipped + 1, pos := st.pos + 1 },
                { lg with skippedKeys := lg.skippedKeys ++ [key] })
            else if lab = Json.str "negative" then
              some (db, { st with skipped := st.skipped + 1, neg := st.neg + 1 },
                { lg with skippedKeys := lg.skippedKeys ++ [key] })
            else if lab = Json.str "neutral" then
              some (db, { st with skipped := st.skipped + 1, neu := st.neu + 1 },
                { lg with skippedKeys := lg.skippedKeys ++ [key] })
            else none
        | _ => none
      else analyzeOne svc now c db st lg key
  | none => analyzeOne svc now c db st lg key

/-- Result of one iteration of the `reply_to_comments` loop: either an
uncaught exception (carrying the store at the crash point) or the state
passed to the next iteration. -/
inductive StepOut where
  | crash (db : Store)
  | next (db : Store) (st : RStats) (lg : List StepTag)

/-- The store an iteration leaves behind (also at a crash, since every
store write is committed individually). -/
def StepOut.db : StepOut → Store
  | .crash d => d
  | .next d _ _ => d

/-- One iteration of the `reply_to_comments` loop, split out of `replyLoop`
for reasoning (the `replyLoop_cons` lemma below proves the loop is this
step followed by the loop on the rest). -/
def replyStep1 (env : ReplyEnv) (c : Candidate) (db : Store) (st : RStats)
    (lg : List StepTag) : StepOut :=
  let printable : Bool :=
    match c.message with
    | Json.str _ => true
    | Json.arr _ => true
    | _ => false
  if printable = false then StepOut.crash db
  else
    match classify_comment_type env c.message with
    | none => StepOut.crash db
    | some ri =>
        match ri with
        | Json.obj rifs =>
            if jHasKey rifs "error" then
              StepOut.next db { st with errors := st.errors + 1 }
                (lg ++ [StepTag.draftError])
            else
              let rtype := jlookupD rifs "type" (Json.str "general")
              let rtext := jlookupD rifs "reply"
                (Json.str "Thank you for your comment! 😊")
              match post_reply_to_facebook env c.comment_id rtext with
              | PostRes.success rid =>
                  let storage := Json.obj (objUnion
                    [("comment_id", c.comment_id),
                     ("comment_key", c.comment_key),
                     ("original_message", c.message),
                     ("author_name", c.author_name),
                     ("sentiment", c.sentiment),
                     ("reply_type", rtype), ("reply_text", rtext),
                     ("facebook_reply_id", rid),
                     ("replied_at", Json.str env.now)] rifs)
                  let db' := store_reply_in_db db c.comment_key c.comment_id
                    storage
                  if rtype = Json.str "question" then
                    StepOut.next db'
                      { st with replied := st.replied + 1, q := st.q + 1 }
                      (lg ++ [StepTag.repliedOk])
                  else if rtype = Json.str "compliment" then
                    StepOut.next db'
                      { st with replied := st.replied + 1, comp := st.comp + 1 }
                      (lg ++ [StepTag.repliedOk])
                  else if rtype = Json.str "general" then
                    StepOut.next db'
                      { st with replied := st.replied + 1, gen := st.gen + 1 }
                      (lg ++ [StepTag.repliedOk])
                  else StepOut.crash db'
              | PostRes.failure err =>
                  match is_comment_not_found_error
                      (Json.obj [("error", Json.obj [("message", err)])]) with
                  | none => StepOut.crash db
                  | some true =>
                      let (db', deleted) := delete_comment_from_db db c.comment_id
                      if deleted.length > 0 then
                        StepOut.next db'
                          { st with cleaned_up := st.cleaned_up + 1 }
                          (lg ++ [StepTag.cleanedUp])
                      else
                        StepOut.next db'
                          { st with errors := st.errors + 1 }
                          (lg ++ [StepTag.cleanupFailed])
                  | some false =>
                      StepOut.next db { st with errors := st.errors + 1 }
                        (lg ++ [StepTag.postError])
        | _ => StepOut.crash db

/-- A candidate whose run-time data stays inside the space the loop handles
without an uncaught exception: its message is a string (so the progress
print and the classifier do not raise), a failed remote post carries a
string error message (so the not-found test does not raise), and a
successfully posted reply was drafted with one of the three tallied types
(so `stats["reply_types"][...]` does not raise `KeyError`).  The three
per-candidate FAILURE outcomes of the claim need no such condition — they
never raise. -/
def stepOk (env : ReplyEnv) (c : Candidate) : Prop :=
  (∃ m, c.message = Json.str m) ∧
  (∀ rifs, classify_comment_type env c.message = some (Json.obj rifs) →
    jHasKey rifs "error" = true ∨
    (match post_reply_to_facebook env c.comment_id
        (jlookupD rifs "reply" (Json.str "Thank you for your comment! 😊")) with
     | PostRes.success _ =>
         jlookupD rifs "type" (Json.str "general") = Json.str "question" ∨
         jlookupD rifs "type" (Json.str "general") = Json.str "compliment" ∨
         jlookupD rifs "type" (Json.str "general") = Json.str "general"
     | PostRes.failure e => ∃ s, e = Json.str s))

/-- Any number of Reply Engine invocations, each with its own clients, wall
clock and reply bound, threading the store (crashed runs also leave their
partial writes behind, as each write is committed individually). -/
def runEngine : List (ReplyEnv × Nat) → Store → Store
  | [], db => db
  | (env, maxR) :: rest, db => runEngine rest (reply_to_comments env db maxR).1

/-! ## Basic lemmas about the store and key prefixes -/

theorem get?_set_self (db : Store) (k : String) (v : Json) :
    (db.set k v).get? k = some v := by
  induction db with
  | nil => simp [Store.set, Store.get?]
  | cons p rest ih =>
      obtain ⟨k', v'⟩ := p
      by_cases h : k' = k <;> simp [Store.set, Store.get?, h, ih]

theorem get?_set_ne (db : Store) (k k' : String) (v : Json) (h : k' ≠ k) :
    (db.set k v).get? k' = db.get? k' := by
  induction db with
  | nil =>
      simp only [Store.set, Store.get?]
      rw [if_neg (fun hk => h hk.symm)]
  | cons p rest ih =>
      obtain ⟨k0, v0⟩ := p
      by_cases h0 : k0 = k
      · subst h0
        simp only [Store.set, if_pos rfl, Store.get?]
        rw [if_neg (fun hk => h hk.symm), if_neg (fun hk => h hk.symm)]
      · simp only [Store.set, if_neg h0, Store.get?]
        by_cases h1 : k0 = k'
        · rw [if_pos h1, if_pos h1]
        · rw [if_neg h1, if_neg h1]
          exact ih

theorem mem_set (db : Store) (k : String) (v : Json) (p : String × Json)
    (h : p ∈ db.set k v) : p = (k, v) ∨ p ∈ db := by
  induction db with
  | nil =>
      simp only [Store.set, List.mem_singleton] at h
      exact Or.inl h
  | cons q rest ih =>
      obtain ⟨k0, v0⟩ := q
      by_cases h0 : k0 = k
      · simp only [Store.set, if_pos h0, List.mem_cons] at h
        rcases h with h1 | h1
        · exact Or.inl h1
        · exact Or.inr (List.mem_cons.mpr (Or.inr h1))
      · simp only [Store.set, if_neg h0, List.mem_cons] at h
        rcases h with h1 | h1
        · exact Or.inr (List.mem_cons.mpr (Or.inl h1))
        · rcases ih h1 with h2 | h2
          · exact Or.inl h2
          · exact Or.inr (List.mem_cons.mpr (Or.inr h2))

theorem strStartsWith_append (p r : String) :
    strStartsWith p (p ++ r) = true := by
  simp [strStartsWith, String.toList, String.data_append]

theorem starts_conflict {p q s : String} (hp : strStartsWith p s = true)
    (hq : strStartsWith q s = true) (hlen : p.toList.length ≤ q.toList.length) :
    strStartsWith p q = true := by
  simp only [strStartsWith, decide_eq_true_eq] at *
  exact List.prefix_of_prefix_length_le hp hq hlen

theorem sentimentKeyOf_starts (k : String) (cid : Json) :
    strStartsWith "sentiment:" (sentimentKeyOf k cid) = true := by
  simp [sentimentKeyOf, strStartsWith, String.toList, String.data_append,
    List.append_assoc]

theorem replyKeyOf_starts (ck cid : Json) :
    strStartsWith "reply:" (replyKeyOf ck cid) = true := by
  simp [replyKeyOf, strStartsWith, String.toList, String.data_append,
    List.append_assoc]

theorem not_reply_starts_of_sentiment {s : String}
    (h : strStartsWith "sentiment:" s = true) :
    strStartsWith "reply:" s = false := by
  by_contra hc
  rw [Bool.not_eq_false] at hc
  have := starts_conflict hc h (by decide)
  revert this
  decide

theorem not_sentiment_starts_of_reply {s : String}
    (h : strStartsWith "reply:" s = true) :
    strStartsWith "sentiment:" s = false := by
  by_contra hc
  rw [Bool.not_eq_false] at hc
  have := starts_conflict h hc (by decide)
  revert this
  decide

theorem not_comments_starts_of_reply {s : String}
    (h : strStartsWith "reply:" s = true) :
    strStartsWith "comments:" s = false := by
  by_contra hc
  rw [Bool.not_eq_false] at hc
  have := starts_conflict h hc (by decide)
  revert this
  decide

theorem not_comments_starts_of_sentiment {s : String}
    (h : strStartsWith "sentiment:" s = true) :
    strStartsWith "comments:" s = false := by
  by_contra hc
  rw [Bool.not_eq_false] at hc
  have := starts_conflict hc h (by decide)
  revert this
  decide

/-! ## Step equations for the two batch loops -/

theorem analyzeLoop_cons (svc : SentimentSvc) (now : String) (force : Bool)
    (c : FlatComment) (rest : List FlatComment) (db : Store) (st : AStats)
    (lg : ALogs) :
    analyzeLoop svc now force (c :: rest) db st lg =
      match analyzeStep1 svc now force c db st lg with
      | none => (db, lg, none)
      | some (db2, st2, lg2) => analyzeLoop svc now force rest db2 st2 lg2 := by
  simp only [analyzeLoop, analyzeStep1]
  repeat' first
  | rfl
  | split

theorem replyLoop_cons (env : ReplyEnv) (c : Candidate)
    (rest : List Candidate) (db : Store) (st : RStats) (lg : List StepTag) :
    replyLoop env (c :: rest) db st lg =
      match replyStep1 env c db st lg with
      | StepOut.crash db2 => (db2, lg, none)
      | StepOut.next db2 st2 lg2 => replyLoop env rest db2 st2 lg2 := by
  simp only [replyLoop, replyStep1]
  repeat' first
  | rfl
  | split

/-! ## C6 — cleanup idempotence -/

/-- C6: calling `delete_comment_from_db` twice in succession with no
intervening writes is safe: the second call matches and deletes no key at
all (so the Python return value `len(deleted_keys) > 0`, which compares
equal to a deleted count of 0, is falsy) and leaves the store exactly as
the first call left it. -/
theorem C6_cleanup_idempotent (db : Store) (commentId : Json) :
    (delete_comment_from_db (delete_comment_from_db db commentId).1 commentId).2 = [] ∧
    (delete_comment_from_db (delete_comment_from_db db commentId).1 commentId).1 =
      (delete_comment_from_db db commentId).1 := by
  cases commentId with
  | str s =>
      constructor
      · show (((db.filter (fun p => strContains s p.1 = false)).map
          Prod.fst).filter fun k => strContains s k) = []
        rw [List.filter_eq_nil_iff]
        intro k hk
        rw [List.mem_map] at hk
        obtain ⟨p, hp, rfl⟩ := hk
        rw [List.mem_filter] at hp
        simpa using hp.2
      · show ((db.filter (fun p => strContains s p.1 = false)).filter
          (fun p => strContains s p.1 = false)) =
          db.filter (fun p => strContains s p.1 = false)
        rw [List.filter_eq_self]
        intro p hp
        rw [List.mem_filter] at hp
        exact hp.2
  | null => simp [delete_comment_from_db]
  | bool b => simp [delete_comment_from_db]
  | num q => simp [delete_comment_from_db]
  | arr xs => simp [delete_comment_from_db]
  | obj fs => simp [delete_comment_from_db]

/-! ## C7 — the object-missing predicate -/

/-- C7 (counterexample): an error envelope with `code=100`, no subcode and a
message matching none of the spec's phrases is classified as
object-missing by `is_comment_not_found_error`, while the spec's predicate
rejects it — the claimed "if and only if" fails. -/
theorem C7_counterexample :
    is_comment_not_found_error (Json.obj [("error", Json.obj
      [("message", Json.str "Invalid parameter"), ("code", Json.num 100)])]) =
      some true ∧
    spec_object_missing (Json.num 100) Json.null "Invalid parameter" = false := by
  decide

/-- C7 (amended): on an envelope whose `error` entry is a dict with a string
message, reply.py's `is_comment_not_found_error` returns true exactly when
the lowercased message contains one of "does not exist" / "cannot be
loaded" / "missing permissions" / "does not support this operation", or
`code` is 100 or 803, or `error_subcode` is 33; the standalone variant
returns true exactly when `(code, error_subcode) = (100, 33)` or the
lowercased message contains "comment does not exist" or "object does not
exist".  Every envelope the spec flags is flagged by reply.py's
predicate. -/
theorem C7_amended_characterization (fs : List (String × Json)) (m : String)
    (hm : jlookupD fs "message" (Json.str "") = Json.str m) :
    (is_comment_not_found_error (Json.obj [("error", Json.obj fs)]) =
      some (decide (strContains "does not exist" (strToLower m) = true ∨
        strContains "cannot be loaded" (strToLower m) = true ∨
        strContains "missing permissions" (strToLower m) = true ∨
        strContains "does not support this operation" (strToLower m) = true ∨
        jlookupD fs "code" Json.null = Json.num 100 ∨
        jlookupD fs "code" Json.null = Json.num 803 ∨
        jlookupD fs "error_subcode" Json.null = Json.num 33))) ∧
    (is_comment_not_found_error_standalone (Json.obj [("error", Json.obj fs)]) =
      some (decide ((jlookupD fs "code" Json.null = Json.num 100 ∧
          jlookupD fs "error_subcode" Json.null = Json.num 33) ∨
        strContains "comment does not exist" (strToLower m) = true ∨
        strContains "object does not exist" (strToLower m) = true))) ∧
    (spec_object_missing (jlookupD fs "code" Json.null)
        (jlookupD fs "error_subcode" Json.null) m = true →
      is_comment_not_found_error (Json.obj [("error", Json.obj fs)]) = some true) := by
  have henv : jlookupD [("error", Json.obj fs)] "error" Json.null =
      Json.obj fs := by
    simp [jlookupD, jlookup]
  have henv2 : jlookupD [("error", Json.obj fs)] "error" (Json.obj []) =
      Json.obj fs := by
    simp [jlookupD, jlookup]
  refine ⟨?_, ?_, ?_⟩
  · simp only [is_comment_not_found_error, henv, hm]
  · simp only [is_comment_not_found_error_standalone, henv2]
    by_cases hc : jlookupD fs "code" Json.null = Json.num 100 ∧
        jlookupD fs "error_subcode" Json.null = Json.num 33
    · rw [if_pos (by simpa using hc)]
      simp [hc]
    · rw [if_neg (by simpa using hc), hm]
      simp only [Option.some.injEq]
      rw [decide_eq_decide]
      constructor
      · intro h
        exact Or.inr h
      · intro h
        rcases h with h | h
        · exact absurd h hc
        · exact h
  · intro hs
    simp only [is_comment_not_found_error, henv, hm, Option.some.injEq]
    rw [spec_object_missing] at hs
    simp only [decide_eq_true_eq] at hs ⊢
    rcases hs with ⟨h1, _⟩ | h | h
    · exact Or.inr (Or.inr (Or.inr (Or.inr (Or.inl h1))))
    · exact Or.inl h
    · exact Or.inr (Or.inl h)

/-- C7 (witness for the amended theorem): concrete envelopes exercising both
characterizations and the spec implication. -/
theorem C7_amended_witness :
    jlookupD [("message", Json.str "Object does not EXIST")] "message"
      (Json.str "") = Json.str "Object does not EXIST" ∧
    is_comment_not_found_error (Json.obj [("error", Json.obj
      [("message", Json.str "Object does not EXIST")])]) = some true := by
  refine ⟨by decide, ?_⟩
  have h := C7_amended_characterization
    [("message", Json.str "Object does not EXIST")] "Object does not EXIST"
    (by decide)
  rw [h.1]
  decide

/-! ## C4 — snapshot replacement on re-ingestion -/

/-- C4 (counterexample): ingesting a post twice where the first successful
fetch returns one comment and the second successful fetch returns the
empty list leaves the first snapshot untouched (the route only stores a
truthy `data`), so the stored snapshot is not the second fetched set. -/
theorem C4_counterexample :
    (fetch_comments_route
      ((fetch_comments_route [] "ct" "p"
        (Json.obj [("data", Json.arr [Json.obj [("id", Json.str "c1")]])]) "t1").1)
      "ct" "p" (Json.obj [("data", Json.arr [])]) "t2").2 = true ∧
    (fetch_comments_route
      ((fetch_comments_route [] "ct" "p"
        (Json.obj [("data", Json.arr [Json.obj [("id", Json.str "c1")]])]) "t1").1)
      "ct" "p" (Json.obj [("data", Json.arr [])]) "t2").1.get? "comments:ct:p" =
      some (Json.obj [("post_id", Json.str "p"), ("content_id", Json.str "ct"),
        ("comments", Json.arr [Json.obj [("id", Json.str "c1")]]),
        ("last_updated", Json.str "t1"), ("total_comments", Json.num 1)]) ∧
    Json.arr [Json.obj [("id", Json.str "c1")]] ≠ Json.arr [] := by
  refine ⟨by decide, by decide, by decide⟩

/-- C4 (amended): when the second successful fetch returns a non-empty
comment list, the stored snapshot after the second ingestion is exactly
the second fetched set — comments replaced wholesale, `total_comments`
equal to the second set's length, independently of the first fetched
set. -/
theorem C4_amended_snapshot_replacement (db : Store) (contentId postId : String)
    (r1 r2 : List Json) (now1 now2 : String) (h2 : r2 ≠ []) :
    (fetch_comments_route
      ((fetch_comments_route db contentId postId
        (Json.obj [("data", Json.arr r1)]) now1).1)
      contentId postId (Json.obj [("data", Json.arr r2)]) now2).2 = true ∧
    (fetch_comments_route
      ((fetch_comments_route db contentId postId
        (Json.obj [("data", Json.arr r1)]) now1).1)
      contentId postId (Json.obj [("data", Json.arr r2)]) now2).1.get?
        ("comments:" ++ contentId ++ ":" ++ postId) =
      some (Json.obj [("post_id", Json.str postId),
        ("content_id", Json.str contentId), ("comments", Json.arr r2),
        ("last_updated", Json.str now2),
        ("total_comments", Json.num r2.length)]) := by
  have hdata : ∀ (r : List Json),
      jlookupD [("data", Json.arr r)] "data" (Json.arr []) = Json.arr r := by
    intro r
    simp [jlookupD, jlookup]
  have htr : (Json.arr r2).truthy = true := by
    simp [Json.truthy, List.isEmpty_iff, h2]
  constructor
  · rw [fetch_comments_route]
    simp only [jHasKey, List.any, hdata, htr, if_true]
    rw [store_comments_in_db]
    simp [pyLen]
  · rw [fetch_comments_route]
    simp only [jHasKey, List.any, hdata, htr, if_true]
    rw [store_comments_in_db]
    simp only [pyLen]
    exact get?_set_self _ _ _

/-- C4 (witness for the amended theorem): a concrete double ingestion where
the second set replaces the first. -/
theorem C4_amended_witness :
    ([Json.obj [("id", Json.str "c2")]] : List Json) ≠ [] ∧
    (fetch_comments_route
      ((fetch_comments_route [] "ct" "p"
        (Json.obj [("data", Json.arr [Json.obj [("id", Json.str "c1")]])]) "t1").1)
      "ct" "p" (Json.obj [("data", Json.arr [Json.obj [("id", Json.str "c2")]])])
      "t2").1.get? "comments:ct:p" =
      some (Json.obj [("post_id", Json.str "p"), ("content_id", Json.str "ct"),
        ("comments", Json.arr [Json.obj [("id", Json.str "c2")]]),
        ("last_updated", Json.str "t2"), ("total_comments", Json.num 1)]) :=
  ⟨by decide, (C4_amended_snapshot_replacement [] "ct" "p"
    [Json.obj [("id", Json.str "c1")]] [Json.obj [("id", Json.str "c2")]]
    "t1" "t2" (by decide)).2⟩

/-! ## C2 — idempotent classification -/

theorem analyzeLoop_skip_all (svc : SentimentSvc) (now : String)
    (cs : List FlatComment) :
    ∀ (db : Store) (st : AStats) (lg : ALogs),
      (∀ c ∈ cs, ValidSentRecord db c) →
      ∃ st' lg', analyzeLoop svc now false cs db st lg = (db, lg', some st') ∧
        lg'.calls = lg.calls ∧
        lg'.analyzedKeys = lg.analyzedKeys ∧
        lg'.errorKeys = lg.errorKeys ∧
        st'.skipped = st.skipped + cs.length ∧
        st'.analyzed = st.analyzed ∧ st'.errors = st.errors ∧
        st'.total = st.total := by
  induction cs with
  | nil =>
      intro db st lg _
      exact ⟨st, lg, rfl, rfl, rfl, rfl, by simp, rfl, rfl, rfl⟩
  | cons c rest ih =>
      intro db st lg h
      obtain ⟨fs, hget, hfs, hlab⟩ := h c (List.mem_cons_self _ _)
      rw [analyzeLoop_cons]
      have htr : (Json.obj fs).truthy = true := by
        simp [Json.truthy, hfs]
      have hstep : ∃ st1 lg1, analyzeStep1 svc now false c db st lg =
          some (db, st1, lg1) ∧ lg1.calls = lg.calls ∧
          lg1.analyzedKeys = lg.analyzedKeys ∧ lg1.errorKeys = lg.errorKeys ∧
          st1.skipped = st.skipped + 1 ∧ st1.analyzed = st.analyzed ∧
          st1.errors = st.errors ∧ st1.total = st.total := by
        rcases hlab with hl | hl | hl
        · refine ⟨{ st with skipped := st.skipped + 1, pos := st.pos + 1 },
            { lg with skippedKeys :=
              lg.skippedKeys ++ [sentimentKeyOf c.key c.comment_id] },
            ?_, rfl, rfl, rfl, rfl, rfl, rfl, rfl⟩
          simp only [analyzeStep1]
          rw [hget]
          simp [htr, hl]
        · refine ⟨{ st with skipped := st.skipped + 1, neg := st.neg + 1 },
            { lg with skippedKeys :=
              lg.skippedKeys ++ [sentimentKeyOf c.key c.comment_id] },
            ?_, rfl, rfl, rfl, rfl, rfl, rfl, rfl⟩
          simp only [analyzeStep1]
          rw [hget]
          simp [htr, hl]
        · refine ⟨{ st with skipped := st.skipped + 1, neu := st.neu + 1 },
            { lg with skippedKeys :=
              lg.skippedKeys ++ [sentimentKeyOf c.key c.comment_id] },
            ?_, rfl, rfl, rfl, rfl, rfl, rfl, rfl⟩
          simp only [analyzeStep1]
          rw [hget]
          simp [htr, hl]
      obtain ⟨st1, lg1, hs, h1, h2, h3, h4, h5, h6, h7⟩ := hstep
      rw [hs]
      obtain ⟨st', lg', heq, g1, g2, g3, g4, g5, g6, g7⟩ := ih db st1 lg1
        (fun d hd => h d (List.mem_cons_of_mem _ hd))
      refine ⟨st', lg', heq, ?_, ?_, ?_, ?_, ?_, ?_, ?_⟩
      · rw [g1, h1]
      · rw [g2, h2]
      · rw [g3, h3]
      · simp only [List.length_cons]
        omega
      · rw [g5, h5]
      · rw [g6, h6]
      · rw [g7, h7]

/-- Helper for C2: under the all-analyzed precondition the run leaves the
store untouched. -/
theorem analyze_all_store_id (db : Store)
    (h : ∀ c ∈ get_all_comments_from_db db, ValidSentRecord db c)
    (svc : SentimentSvc) (now : String) :
    (analyze_all_comments svc now db false).1 = db := by
  rw [analyze_all_comments]
  by_cases he : (get_all_comments_from_db db).isEmpty
  · rw [if_pos he]
  · rw [if_neg he]
    obtain ⟨st', lg', heq, -⟩ := analyzeLoop_skip_all svc now
      (get_all_comments_from_db db) db
      { AStats.zero with total := (get_all_comments_from_db db).length }
      ALogs.empty h
    rw [heq]

/-- C2: when every flattened comment already has a (well-formed) Sentiment
Record under its `sentiment:<commentKey>:<commentId>` key, running
`analyze_all_comments` with `force_reanalyze=False` invokes the external
classification service zero times, counts every comment as skipped (and
none as analyzed or errored), and leaves the store — hence every existing
Sentiment Record — entirely unchanged; a second run on the result yields
the same store again. -/
theorem C2_idempotent_classification (svc : SentimentSvc) (now : String)
    (db : Store)
    (h : ∀ c ∈ get_all_comments_from_db db, ValidSentRecord db c) :
    ∃ st lg, analyze_all_comments svc now db false = (db, lg, some st) ∧
      lg.calls = [] ∧ lg.analyzedKeys = [] ∧ lg.errorKeys = [] ∧
      st.total = (get_all_comments_from_db db).length ∧
      st.skipped = st.total ∧ st.analyzed = 0 ∧ st.errors = 0 ∧
      ∀ (svc2 : SentimentSvc) (now2 : String),
        (analyze_all_comments svc2 now2 db false).1 = db := by
  have hsecond : ∀ (svc2 : SentimentSvc) (now2 : String),
      (analyze_all_comments svc2 now2 db false).1 = db := by
    intro svc2 now2
    rw [analyze_all_store_id db h svc2 now2]
  rw [analyze_all_comments]
  by_cases he : (get_all_comments_from_db db).isEmpty
  · rw [if_pos he]
    refine ⟨AStats.zero, ALogs.empty, rfl, rfl, rfl, rfl, ?_, rfl, rfl, rfl,
      hsecond⟩
    rw [List.isEmpty_iff] at he
    rw [he]
    rfl
  · rw [if_neg he]
    obtain ⟨st', lg', heq, g1, g2, g3, g4, g5, g6, g7⟩ :=
      analyzeLoop_skip_all svc now (get_all_comments_from_db db) db
        { AStats.zero with total := (get_all_comments_from_db db).length }
        ALogs.empty h
    rw [heq]
    refine ⟨st', lg', rfl, g1, g2, g3, ?_, ?_, g5, g6, hsecond⟩
    · exact g7
    · rw [g7, g4]
      simp [AStats.zero]

/-- C2 (witness): a concrete store with one snapshot comment and its
Sentiment Record. -/
theorem C2_witness :
    (∀ c ∈ get_all_comments_from_db
      [("comments:ct1:p1", Json.obj [("post_id", Json.str "p1"),
          ("content_id", Json.str "ct1"),
          ("comments", Json.arr [Json.obj [("id", Json.str "c1"),
            ("message", Json.str "hi"),
            ("from", Json.obj [("name", Json.str "A")])]]),
          ("total_comments", Json.num 1)]),
       ("sentiment:comments:ct1:p1:c1",
          Json.obj [("comment_id", Json.str "c1"),
            ("comment_key", Json.str "comments:ct1:p1"),
            ("message", Json.str "hi"),
            ("sentiment", Json.str "positive"), ("confidence", Json.num 1)])],
      ValidSentRecord
        [("comments:ct1:p1", Json.obj [("post_id", Json.str "p1"),
            ("content_id", Json.str "ct1"),
            ("comments", Json.arr [Json.obj [("id", Json.str "c1"),
              ("message", Json.str "hi"),
              ("from", Json.obj [("name", Json.str "A")])]]),
            ("total_comments", Json.num 1)]),
         ("sentiment:comments:ct1:p1:c1",
            Json.obj [("comment_id", Json.str "c1"),
              ("comment_key", Json.str "comments:ct1:p1"),
              ("message", Json.str "hi"),
              ("sentiment", Json.str "positive"), ("confidence", Json.num 1)])]
        c) ∧
    ∃ st lg, analyze_all_comments ⟨true, fun _ => Except.ok "positive"⟩ "t"
      [("comments:ct1:p1", Json.obj [("post_id", Json.str "p1"),
          ("content_id", Json.str "ct1"),
          ("comments", Json.arr [Json.obj [("id", Json.str "c1"),
            ("message", Json.str "hi"),
            ("from", Json.obj [("name", Json.str "A")])]]),
          ("total_comments", Json.num 1)]),
       ("sentiment:comments:ct1:p1:c1",
          Json.obj [("comment_id", Json.str "c1"),
            ("comment_key", Json.str "comments:ct1:p1"),
            ("message", Json.str "hi"),
            ("sentiment", Json.str "positive"), ("confidence", Json.num 1)])]
      false =
      ([("comments:ct1:p1", Json.obj [("post_id", Json.str "p1"),
          ("content_id", Json.str "ct1"),
          ("comments", Json.arr [Json.obj [("id", Json.str "c1"),
            ("message", Json.str "hi"),
            ("from", Json.obj [("name", Json.str "A")])]]),
          ("total_comments", Json.num 1)]),
        ("sentiment:comments:ct1:p1:c1",
          Json.obj [("comment_id", Json.str "c1"),
            ("comment_key", Json.str "comments:ct1:p1"),
            ("message", Json.str "hi"),
            ("sentiment", Json.str "positive"), ("confidence", Json.num 1)])],
       lg, some st) ∧
      lg.calls = [] ∧ lg.analyzedKeys = [] ∧ lg.errorKeys = [] ∧
      st.total = (get_all_comments_from_db
        [("comments:ct1:p1", Json.obj [("post_id", Json.str "p1"),
            ("content_id", Json.str "ct1"),
            ("comments", Json.arr [Json.obj [("id", Json.str "c1"),
              ("message", Json.str "hi"),
              ("from", Json.obj [("name", Json.str "A")])]]),
            ("total_comments", Json.num 1)]),
         ("sentiment:comments:ct1:p1:c1",
            Json.obj [("comment_id", Json.str "c1"),
              ("comment_key", Json.str "comments:ct1:p1"),
              ("message", Json.str "hi"),
              ("sentiment", Json.str "positive"),
              ("confidence", Json.num 1)])]).length ∧
      st.skipped = st.total ∧ st.analyzed = 0 ∧ st.errors = 0 ∧
      ∀ (svc2 : SentimentSvc) (now2 : String),
        (analyze_all_comments svc2 now2
          [("comments:ct1:p1", Json.obj [("post_id", Json.str "p1"),
              ("content_id", Json.str "ct1"),
              ("comments", Json.arr [Json.obj [("id", Json.str "c1"),
                ("message", Json.str "hi"),
                ("from", Json.obj [("name", Json.str "A")])]]),
              ("total_comments", Json.num 1)]),
           ("sentiment:comments:ct1:p1:c1",
              Json.obj [("comment_id", Json.str "c1"),
                ("comment_key", Json.str "comments:ct1:p1"),
                ("message", Json.str "hi"),
                ("sentiment", Json.str "positive"),
                ("confidence", Json.num 1)])]
          false).1 =
        [("comments:ct1:p1", Json.obj [("post_id", Json.str "p1"),
            ("content_id", Json.str "ct1"),
            ("comments", Json.arr [Json.obj [("id", Json.str "c1"),
              ("message", Json.str "hi"),
              ("from", Json.obj [("name", Json.str "A")])]]),
            ("total_comments", Json.num 1)]),
         ("sentiment:comments:ct1:p1:c1",
            Json.obj [("comment_id", Json.str "c1"),
              ("comment_key", Json.str "comments:ct1:p1"),
              ("message", Json.str "hi"),
              ("sentiment", Json.str "positive"), ("confidence", Json.num 1)])] :=
  have hh : ∀ c ∈ get_all_comments_from_db
      [("comments:ct1:p1", Json.obj [("post_id", Json.str "p1"),
          ("content_id", Json.str "ct1"),
          ("comments", Json.arr [Json.obj [("id", Json.str "c1"),
            ("message", Json.str "hi"),
            ("from", Json.obj [("name", Json.str "A")])]]),
          ("total_comments", Json.num 1)]),
       ("sentiment:comments:ct1:p1:c1",
          Json.obj [("comment_id", Json.str "c1"),
            ("comment_key", Json.str "comments:ct1:p1"),
            ("message", Json.str "hi"),
            ("sentiment", Json.str "positive"), ("confidence", Json.num 1)])],
      ValidSentRecord
        [("comments:ct1:p1", Json.obj [("post_id", Json.str "p1"),
            ("content_id", Json.str "ct1"),
            ("comments", Json.arr [Json.obj [("id", Json.str "c1"),
              ("message", Json.str "hi"),
              ("from", Json.obj [("name", Json.str "A")])]]),
            ("total_comments", Json.num 1)]),
         ("sentiment:comments:ct1:p1:c1",
            Json.obj [("comment_id", Json.str "c1"),
              ("comment_key", Json.str "comments:ct1:p1"),
              ("message", Json.str "hi"),
              ("sentiment", Json.str "positive"), ("confidence", Json.num 1)])]
        c := by
    intro c hc
    have hlist : get_all_comments_from_db
        [("comments:ct1:p1", Json.obj [("post_id", Json.str "p1"),
            ("content_id", Json.str "ct1"),
            ("comments", Json.arr [Json.obj [("id", Json.str "c1"),
              ("message", Json.str "hi"),
              ("from", Json.obj [("name", Json.str "A")])]]),
            ("total_comments", Json.num 1)]),
         ("sentiment:comments:ct1:p1:c1",
            Json.obj [("comment_id", Json.str "c1"),
              ("comment_key", Json.str "comments:ct1:p1"),
              ("message", Json.str "hi"),
              ("sentiment", Json.str "positive"),
              ("confidence", Json.num 1)])] =
        [{ key := "comments:ct1:p1", post_id := Json.str "p1",
           content_id := Json.str "ct1", comment_id := Json.str "c1",
           message := Json.str "hi", author_name := Json.str "A",
           created_time := Json.null, like_count := Json.num 0,
           original_data := Json.obj [("id", Json.str "c1"),
             ("message", Json.str "hi"),
             ("from", Json.obj [("name", Json.str "A")])] }] := by
      decide
    rw [hlist, List.mem_singleton] at hc
    subst hc
    exact ⟨[("comment_id", Json.str "c1"),
        ("comment_key", Json.str "comments:ct1:p1"),
        ("message", Json.str "hi"),
        ("sentiment", Json.str "positive"), ("confidence", Json.num 1)],
      by decide, by decide, Or.inl (by decide)⟩
  ⟨hh, C2_idempotent_classification ⟨true, fun _ => Except.ok "positive"⟩ "t"
    _ hh⟩

/-! ## C10 — failed sentiment analysis leaves no record -/

/-- Any completed iteration of the analysis loop either leaves the store
unchanged or writes under the comment's own sentiment key, and extends the
skipped / error traces at most by that key. -/
theorem analyzeStep1_generic (svc : SentimentSvc) (now : String) (force : Bool)
    (d : FlatComment) (db : Store) (st : AStats) (lg : ALogs)
    (db2 : Store) (st2 : AStats) (lg2 : ALogs)
    (h : analyzeStep1 svc now force d db st lg = some (db2, st2, lg2)) :
    (db2 = db ∨ ∃ w, db2 = db.set (sentimentKeyOf d.key d.comment_id) w) ∧
    (lg2.skippedKeys = lg.skippedKeys ∨
      lg2.skippedKeys = lg.skippedKeys ++ [sentimentKeyOf d.key d.comment_id]) ∧
    (lg2.errorKeys = lg.errorKeys ∨
      lg2.errorKeys = lg.errorKeys ++ [sentimentKeyOf d.key d.comment_id]) ∧
    (lg2.analyzedKeys = lg.analyzedKeys ∨
      lg2.analyzedKeys = lg.analyzedKeys ++ [sentimentKeyOf d.key d.comment_id]) ∧
    (st2.errors = st.errors ∨ st2.errors = st.errors + 1) := by
  simp only [analyzeStep1, analyzeOne, analyzeOne.analyzeAfterPrint,
    store_sentiment_in_db] at h
  repeat' split at h
  all_goals
    first
    | exact Option.noConfusion h
    | (simp only [Option.some.injEq, Prod.mk.injEq] at h
       obtain ⟨h1, h2, h3⟩ := h
       subst h1
       subst h2
       subst h3
       refine ⟨?_, ?_, ?_, ?_, ?_⟩ <;>
         first
         | exact Or.inl rfl
         | exact Or.inr rfl
         | exact Or.inr ⟨_, rfl⟩)

/-- A loop iteration on a comment with no stored Sentiment Record takes the
analyze branch: either the analysis succeeded (no `error` entry) and the
record was written under the comment's key, or it failed (an `error`
entry) and the store is untouched while the errors tally and trace grow. -/
theorem analyzeStep1_fresh (svc : SentimentSvc) (now : String)
    (d : FlatComment) (db : Store) (st : AStats) (lg : ALogs)
    (db2 : Store) (st2 : AStats) (lg2 : ALogs)
    (h0 : db.get? (sentimentKeyOf d.key d.comment_id) = none)
    (h : analyzeStep1 svc now false d db st lg = some (db2, st2, lg2)) :
    (∃ rfs calls w,
      analyze_sentiment svc now d.message = some (Json.obj rfs, calls) ∧
      jHasKey rfs "error" = false ∧
      db2 = db.set (sentimentKeyOf d.key d.comment_id) w ∧
      lg2.analyzedKeys = lg.analyzedKeys ++ [sentimentKeyOf d.key d.comment_id] ∧
      lg2.skippedKeys = lg.skippedKeys ∧ lg2.errorKeys = lg.errorKeys) ∨
    (∃ rfs calls,
      analyze_sentiment svc now d.message = some (Json.obj rfs, calls) ∧
      jHasKey rfs "error" = true ∧ db2 = db ∧
      lg2.errorKeys = lg.errorKeys ++ [sentimentKeyOf d.key d.comment_id] ∧
      lg2.skippedKeys = lg.skippedKeys ∧ lg2.analyzedKeys = lg.analyzedKeys ∧
      st2.errors = st.errors + 1) := by
  simp only [analyzeStep1, h0] at h
  simp only [analyzeOne, analyzeOne.analyzeAfterPrint,
    store_sentiment_in_db] at h
  repeat' split at h
  all_goals
    first
    | exact Option.noConfusion h
    | (simp only [Option.some.injEq, Prod.mk.injEq] at h
       obtain ⟨h1, h2, h3⟩ := h
       subst h1
       subst h2
       subst h3
       first
       | exact Or.inr ⟨_, _, by assumption, by assumption, rfl, rfl, rfl,
           rfl, rfl⟩
       | exact Or.inl ⟨_, _, _, by assumption, by simp_all, rfl, rfl, rfl,
           rfl⟩)

/-- Over comments whose keys differ from `K`, a completed analysis loop
never adds `K` to the skipped trace and only extends the analyzed and
error traces. -/
theorem analyzeLoop_noK (svc : SentimentSvc) (now : String) (K : String) :
    ∀ (cs : List FlatComment) (db : Store) (st : AStats) (lg : ALogs)
      (db' : Store) (lg' : ALogs) (st' : AStats),
      (∀ d ∈ cs, sentimentKeyOf d.key d.comment_id ≠ K) →
      analyzeLoop svc now false cs db st lg = (db', lg', some st') →
      (K ∉ lg.skippedKeys → K ∉ lg'.skippedKeys) ∧
      (∀ x ∈ lg.analyzedKeys, x ∈ lg'.analyzedKeys) ∧
      (∀ x ∈ lg.errorKeys, x ∈ lg'.errorKeys) := by
  intro cs
  induction cs with
  | nil =>
      intro db st lg db' lg' st' _ hrun
      simp only [analyzeLoop, Prod.mk.injEq, Option.some.injEq] at hrun
      obtain ⟨rfl, rfl, rfl⟩ := hrun
      exact ⟨fun hs => hs, fun x hx => hx, fun x hx => hx⟩
  | cons d rest ih =>
      intro db st lg db' lg' st' hK hrun
      rw [analyzeLoop_cons] at hrun
      cases hstep : analyzeStep1 svc now false d db st lg with
      | none =>
          rw [hstep] at hrun
          simp only [Prod.mk.injEq] at hrun
          exact absurd hrun.2.2 (by simp)
      | some out =>
          obtain ⟨db2, st2, lg2⟩ := out
          rw [hstep] at hrun
          obtain ⟨-, hskips, herrs, hanas, -⟩ :=
            analyzeStep1_generic svc now false d db st lg db2 st2 lg2 hstep
          obtain ⟨g1, g2, g3⟩ := ih db2 st2 lg2 db' lg' st'
            (fun e he => hK e (List.mem_cons_of_mem _ he)) hrun
          refine ⟨?_, ?_, ?_⟩
          · intro hns
            apply g1
            rcases hskips with hs | hs
            · rw [hs]
              exact hns
            · rw [hs]
              intro hmem
              rcases List.mem_append.mp hmem with hmem | hmem
              · exact hns hmem
              · rw [List.mem_singleton] at hmem
                exact hK d (List.mem_cons_self _ _) hmem.symm
          · intro x hx
            apply g2
            rcases hanas with hs | hs
            · rw [hs]
              exact hx
            · rw [hs]
              exact List.mem_append_left _ hx
          · intro x hx
            apply g3
            rcases herrs with hs | hs
            · rw [hs]
              exact hx
            · rw [hs]
              exact List.mem_append_left _ hx

/-- Run-1 tracking for a comment key `K` all of whose comments fail
analysis: the store still has no record under `K`, the error trace gains
`K` (and keeps everything it had), and `K` never enters the skipped
trace. -/
theorem analyzeLoop_err_track (svc : SentimentSvc) (now : String) (K : String) :
    ∀ (cs : List FlatComment) (db : Store) (st : AStats) (lg : ALogs)
      (db' : Store) (lg' : ALogs) (st' : AStats),
      db.get? K = none →
      (∀ d ∈ cs, sentimentKeyOf d.key d.comment_id = K →
        ∃ rfs calls, analyze_sentiment svc now d.message =
          some (Json.obj rfs, calls) ∧ jHasKey rfs "error" = true) →
      analyzeLoop svc now false cs db st lg = (db', lg', some st') →
      db'.get? K = none ∧
      (∀ x ∈ lg.errorKeys, x ∈ lg'.errorKeys) ∧
      ((∃ d ∈ cs, sentimentKeyOf d.key d.comment_id = K) → K ∈ lg'.errorKeys) ∧
      (K ∉ lg.skippedKeys → K ∉ lg'.skippedKeys) ∧
      st.errors ≤ st'.errors ∧
      ((∃ d ∈ cs, sentimentKeyOf d.key d.comment_id = K) →
        st.errors + 1 ≤ st'.errors) := by
  intro cs
  induction cs with
  | nil =>
      intro db st lg db' lg' st' h0 _ hrun
      simp only [analyzeLoop, Prod.mk.injEq, Option.some.injEq] at hrun
      obtain ⟨rfl, rfl, rfl⟩ := hrun
      exact ⟨h0, fun x hx => hx, (by rintro ⟨d, hd, -⟩; cases hd),
        fun hs => hs, Nat.le_refl _, (by rintro ⟨d, hd, -⟩; cases hd)⟩
  | cons d rest ih =>
      intro db st lg db' lg' st' h0 hK hrun
      rw [analyzeLoop_cons] at hrun
      cases hstep : analyzeStep1 svc now false d db st lg with
      | none =>
          rw [hstep] at hrun
          simp only [Prod.mk.injEq] at hrun
          exact absurd hrun.2.2 (by simp)
      | some out =>
          obtain ⟨db2, st2, lg2⟩ := out
          rw [hstep] at hrun
          by_cases hKd : sentimentKeyOf d.key d.comment_id = K
          · have h0d : db.get? (sentimentKeyOf d.key d.comment_id) = none := by
              rw [hKd]
              exact h0
            rcases analyzeStep1_fresh svc now d db st lg db2 st2 lg2 h0d
                hstep with
              ⟨rfs, calls, w, hres, herr, -, -, -, -⟩ |
              ⟨rfs, calls, hres, herr, hdb2, herrk, hskip2, hana2, herrn⟩
            · obtain ⟨rfs', calls', hres', herr'⟩ :=
                hK d (List.mem_cons_self _ _) hKd
              rw [hres] at hres'
              simp only [Option.some.injEq, Prod.mk.injEq, Json.obj.injEq]
                at hres'
              rw [hres'.1] at herr
              rw [herr'] at herr
              cases herr
            · rw [hdb2] at hrun
              obtain ⟨g0, g1, g2, g3, g4, g5⟩ := ih db st2 lg2 db' lg' st' h0
                (fun e he hKe => hK e (List.mem_cons_of_mem _ he) hKe) hrun
              refine ⟨g0, ?_, ?_, ?_, ?_, ?_⟩
              · intro x hx
                apply g1
                rw [herrk]
                exact List.mem_append_left _ hx
              · rintro -
                apply g1
                rw [herrk, hKd]
                exact List.mem_append_right _ (List.mem_singleton_self _)
              · intro hns
                apply g3
                rw [hskip2]
                exact hns
              · omega
              · rintro -
                omega
          · obtain ⟨hdb, hskips, herrs, -, herrn⟩ :=
              analyzeStep1_generic svc now false d db st lg db2 st2 lg2 hstep
            have h02 : db2.get? K = none := by
              rcases hdb with rfl | ⟨w, rfl⟩
              · exact h0
              · rw [get?_set_ne db _ K w (fun hh => hKd hh.symm)]
                exact h0
            obtain ⟨g0, g1, g2, g3, g4, g5⟩ := ih db2 st2 lg2 db' lg' st' h02
              (fun e he hKe => hK e (List.mem_cons_of_mem _ he) hKe) hrun
            refine ⟨g0, ?_, ?_, ?_, ?_, ?_⟩
            · intro x hx
              apply g1
              rcases herrs with hs | hs
              · rw [hs]
                exact hx
              · rw [hs]
                exact List.mem_append_left _ hx
            · rintro ⟨e, he, hKe⟩
              rcases List.mem_cons.mp he with rfl | he
              · exact absurd hKe hKd
              · exact g2 ⟨e, he, hKe⟩
            · intro hns
              apply g3
              rcases hskips with hs | hs
              · rw [hs]
                exact hns
              · rw [hs]
                intro hmem
                rcases List.mem_append.mp hmem with hmem | hmem
                · exact hns hmem
                · rw [List.mem_singleton] at hmem
                  exact hKd hmem.symm
            · rcases herrn with hn | hn <;> omega
            · rintro ⟨e, he, hKe⟩
              rcases List.mem_cons.mp he with rfl | he
              · exact absurd hKe hKd
              · have := g5 ⟨e, he, hKe⟩
                rcases herrn with hn | hn <;> omega

/-- Run-2 tracking: if no record is stored under `K` and at most one
comment carries key `K`, a completed run never skips `K`, and if some
comment carries `K` it ends in the analyzed or error trace. -/
theorem analyzeLoop_attempt_track (svc : SentimentSvc) (now : String)
    (K : String) :
    ∀ (cs : List FlatComment) (db : Store) (st : AStats) (lg : ALogs)
      (db' : Store) (lg' : ALogs) (st' : AStats),
      db.get? K = none →
      List.countP (fun d => decide (sentimentKeyOf d.key d.comment_id = K))
        cs ≤ 1 →
      analyzeLoop svc now false cs db st lg = (db', lg', some st') →
      (K ∉ lg.skippedKeys → K ∉ lg'.skippedKeys) ∧
      ((∃ d ∈ cs, sentimentKeyOf d.key d.comment_id = K) →
        K ∈ lg'.analyzedKeys ∨ K ∈ lg'.errorKeys) := by
  intro cs
  induction cs with
  | nil =>
      intro db st lg db' lg' st' h0 _ hrun
      simp only [analyzeLoop, Prod.mk.injEq, Option.some.injEq] at hrun
      obtain ⟨rfl, rfl, rfl⟩ := hrun
      exact ⟨fun hs => hs, (by rintro ⟨d, hd, -⟩; cases hd)⟩
  | cons d rest ih =>
      intro db st lg db' lg' st' h0 hcount hrun
      rw [analyzeLoop_cons] at hrun
      cases hstep : analyzeStep1 svc now false d db st lg with
      | none =>
          rw [hstep] at hrun
          simp only [Prod.mk.injEq] at hrun
          exact absurd hrun.2.2 (by simp)
      | some out =>
          obtain ⟨db2, st2, lg2⟩ := out
          rw [hstep] at hrun
          by_cases hKd : sentimentKeyOf d.key d.comment_id = K
          · have hrest : ∀ e ∈ rest, sentimentKeyOf e.key e.comment_id ≠ K := by
              rw [List.countP_cons] at hcount
              have hd1 : decide (sentimentKeyOf d.key d.comment_id = K) =
                  true := by
                simp [hKd]
              rw [hd1, if_pos rfl] at hcount
              have hzero : List.countP
                  (fun e => decide (sentimentKeyOf e.key e.comment_id = K))
                  rest = 0 := by omega
              intro e he hKe
              have hmem := List.countP_eq_zero.mp hzero e he
              simp [hKe] at hmem
            have h0d : db.get? (sentimentKeyOf d.key d.comment_id) = none := by
              rw [hKd]
              exact h0
            obtain ⟨g1, g2, g3⟩ := analyzeLoop_noK svc now K rest db2 st2 lg2
              db' lg' st' hrest hrun
            rcases analyzeStep1_fresh svc now d db st lg db2 st2 lg2 h0d
                hstep with
              ⟨rfs, calls, w, -, -, -, hana2, hskip2, -⟩ |
              ⟨rfs, calls, -, -, -, herrk, hskip2, -, -⟩
            · refine ⟨?_, ?_⟩
              · intro hns
                apply g1
                rw [hskip2]
                exact hns
              · rintro -
                left
                apply g2
                rw [hana2, hKd]
                exact List.mem_append_right _ (List.mem_singleton_self _)
            · refine ⟨?_, ?_⟩
              · intro hns
                apply g1
                rw [hskip2]
                exact hns
              · rintro -
                right
                apply g3
                rw [herrk, hKd]
                exact List.mem_append_right _ (List.mem_singleton_self _)
          · obtain ⟨hdb, hskips, -, -, -⟩ :=
              analyzeStep1_generic svc now false d db st lg db2 st2 lg2 hstep
            have h02 : db2.get? K = none := by
              rcases hdb with rfl | ⟨w, rfl⟩
              · exact h0
              · rw [get?_set_ne db _ K w (fun hh => hKd hh.symm)]
                exact h0
            have hcount2 : List.countP
                (fun d => decide (sentimentKeyOf d.key d.comment_id = K))
                rest ≤ 1 := by
              rw [List.countP_cons] at hcount
              omega
            obtain ⟨g1, g2⟩ := ih db2 st2 lg2 db' lg' st' h02 hcount2 hrun
            refine ⟨?_, ?_⟩
            · intro hns
              apply g1
              rcases hskips with hs | hs
              · rw [hs]
                exact hns
              · rw [hs]
                intro hmem
                rcases List.mem_append.mp hmem with hmem | hmem
                · exact hns hmem
                · rw [List.mem_singleton] at hmem
                  exact hKd hmem.symm
            · rintro ⟨e, he, hKe⟩
              rcases List.mem_cons.mp he with rfl | he
              · exact absurd hKe hKd
              · exact g2 ⟨e, he, hKe⟩

/-- Writing under a key outside the `comments:` namespace does not change
the flattened comment list. -/
theorem get_all_comments_set (db : Store) (k : String) (v : Json)
    (hk : strStartsWith "comments:" k = false) :
    get_all_comments_from_db (db.set k v) = get_all_comments_from_db db := by
  induction db with
  | nil => simp [Store.set, get_all_comments_from_db, hk]
  | cons p rest ih =>
      obtain ⟨k0, v0⟩ := p
      by_cases h0 : k0 = k
      · subst h0
        simp only [Store.set, if_pos rfl, get_all_comments_from_db, hk]
        simp
      · simp only [Store.set, if_neg h0, get_all_comments_from_db, ih]

/-- The analysis loop only writes Sentiment Records, so the flattened
comment list of the store is preserved (also through crashes). -/
theorem analyzeLoop_flatten (svc : SentimentSvc) (now : String) (force : Bool) :
    ∀ (cs : List FlatComment) (db : Store) (st : AStats) (lg : ALogs),
      get_all_comments_from_db ((analyzeLoop svc now force cs db st lg).1) =
        get_all_comments_from_db db := by
  intro cs
  induction cs with
  | nil =>
      intro db st lg
      rfl
  | cons d rest ih =>
      intro db st lg
      rw [analyzeLoop_cons]
      cases hstep : analyzeStep1 svc now force d db st lg with
      | none => rfl
      | some out =>
          obtain ⟨db2, st2, lg2⟩ := out
          obtain ⟨hdb, -, -, -, -⟩ :=
            analyzeStep1_generic svc now force d db st lg db2 st2 lg2 hstep
          rcases hdb with hdb | ⟨w, hdb⟩
          · rw [hdb]
            exact ih db st2 lg2
          · rw [hdb, ih]
            apply get_all_comments_set
            exact not_comments_starts_of_sentiment
              (sentimentKeyOf_starts d.key d.comment_id)

/-- Two distinct members both satisfying a predicate force a count of at
least two. -/
theorem two_mem_countP {α : Type} (p : α → Bool) (a b : α) :
    ∀ (l : List α), a ∈ l → b ∈ l → a ≠ b → p a = true → p b = true →
      2 ≤ l.countP p := by
  intro l
  induction l with
  | nil =>
      intro ha
      cases ha
  | cons x xs ih =>
      intro ha hb hne hpa hpb
      rcases List.mem_cons.mp ha with rfl | ha'
      · have hb' : b ∈ xs := by
          rcases List.mem_cons.mp hb with rfl | h
          · exact absurd rfl hne
          · exact h
        have h1 : 0 < xs.countP p := List.countP_pos.mpr ⟨b, hb', hpb⟩
        rw [List.countP_cons, hpa, if_pos rfl]
        omega
      · rcases List.mem_cons.mp hb with rfl | hb'
        · have h1 : 0 < xs.countP p := List.countP_pos.mpr ⟨a, ha', hpa⟩
          rw [List.countP_cons, hpb, if_pos rfl]
          omega
        · have h1 := ih ha' hb' hne hpa hpb
          rw [List.countP_cons]
          omega

/-- C10: for a comment whose sentiment-analysis call fails (`analyze_sentiment`
returns a result carrying an `error` entry — uninitialised client, empty
message, or service exception), a completed `analyze_all_comments(False)`
run writes no Sentiment Record under the comment's key, only tallies an
error (the key enters the error trace, never the skipped trace, and the
errors counter is at least one more than it started); consequently any
completed later `analyze_all_comments(False)` run — with any client —
does not skip that comment but attempts it again. -/
theorem C10_failed_analysis (svc : SentimentSvc) (now : String) (db : Store)
    (c : FlatComment) (db' : Store) (lg : ALogs) (st : AStats)
    (hc : c ∈ get_all_comments_from_db db)
    (hfail : ∃ rfs calls, analyze_sentiment svc now c.message =
      some (Json.obj rfs, calls) ∧ jHasKey rfs "error" = true)
    (hnone : db.get? (sentimentKeyOf c.key c.comment_id) = none)
    (hcount : List.countP (fun d => decide (sentimentKeyOf d.key d.comment_id =
      sentimentKeyOf c.key c.comment_id)) (get_all_comments_from_db db) ≤ 1)
    (hrun : analyze_all_comments svc now db false = (db', lg, some st)) :
    db'.get? (sentimentKeyOf c.key c.comment_id) = none ∧
    sentimentKeyOf c.key c.comment_id ∈ lg.errorKeys ∧
    sentimentKeyOf c.key c.comment_id ∉ lg.skippedKeys ∧
    1 ≤ st.errors ∧
    ∀ (svc2 : SentimentSvc) (now2 : String) (db'' : Store) (lg2 : ALogs)
      (st2 : AStats),
      analyze_all_comments svc2 now2 db' false = (db'', lg2, some st2) →
      sentimentKeyOf c.key c.comment_id ∉ lg2.skippedKeys ∧
      (sentimentKeyOf c.key c.comment_id ∈ lg2.analyzedKeys ∨
        sentimentKeyOf c.key c.comment_id ∈ lg2.errorKeys) := by
  have hne : (get_all_comments_from_db db).isEmpty = false := by
    cases h : get_all_comments_from_db db with
    | nil => rw [h] at hc; cases hc
    | cons a l => rfl
  have hcond : ¬((get_all_comments_from_db db).isEmpty = true) := by
    rw [hne]
    simp
  rw [analyze_all_comments, if_neg hcond] at hrun
  have hKall : ∀ d ∈ get_all_comments_from_db db,
      sentimentKeyOf d.key d.comment_id = sentimentKeyOf c.key c.comment_id →
      ∃ rfs calls, analyze_sentiment svc now d.message =
        some (Json.obj rfs, calls) ∧ jHasKey rfs "error" = true := by
    intro d hd hKd
    by_cases hdc : d = c
    · subst hdc
      exact hfail
    · exfalso
      have h2 := two_mem_countP
        (fun e => decide (sentimentKeyOf e.key e.comment_id =
          sentimentKeyOf c.key c.comment_id)) d c
        (get_all_comments_from_db db) hd hc hdc (by simp [hKd]) (by simp)
      omega
  obtain ⟨g0, -, g2, g3, g4, g5⟩ := analyzeLoop_err_track svc now
    (sentimentKeyOf c.key c.comment_id) (get_all_comments_from_db db) db
    { AStats.zero with total := (get_all_comments_from_db db).length }
    ALogs.empty db' lg st hnone hKall hrun
  have hflat : get_all_comments_from_db db' = get_all_comments_from_db db := by
    have := analyzeLoop_flatten svc now false (get_all_comments_from_db db) db
      { AStats.zero with total := (get_all_comments_from_db db).length }
      ALogs.empty
    rw [hrun] at this
    exact this
  refine ⟨g0, g2 ⟨c, hc, rfl⟩, g3 (by simp [ALogs.empty]), ?_, ?_⟩
  · have := g5 ⟨c, hc, rfl⟩
    simpa [AStats.zero] using this
  · intro svc2 now2 db'' lg2 st2 hrun2
    have hne2 : (get_all_comments_from_db db').isEmpty = false := by
      rw [hflat]
      cases h : get_all_comments_from_db db with
      | nil => rw [h] at hc; cases hc
      | cons a l => rfl
    have hcond2 : ¬((get_all_comments_from_db db').isEmpty = true) := by
      rw [hne2]
      simp
    rw [analyze_all_comments, if_neg hcond2] at hrun2
    obtain ⟨k1, k2⟩ := analyzeLoop_attempt_track svc2 now2
      (sentimentKeyOf c.key c.comment_id) (get_all_comments_from_db db') db'
      { AStats.zero with total := (get_all_comments_from_db db').length }
      ALogs.empty db'' lg2 st2 g0 (by rw [hflat]; exact hcount) hrun2
    exact ⟨k1 (by simp [ALogs.empty]), k2 ⟨c, by rw [hflat]; exact hc, rfl⟩⟩

/-- C10 (witness): a concrete store with one snapshot comment and an
uninitialised client: the run writes no Sentiment Record, traces the key
as an error (never skipped), tallies one error, and a completed second
run with any client attempts the comment again instead of skipping it. -/
theorem C10_witness :
    (Store.get? [("comments:ct:p", Json.obj [("post_id", Json.str "p"),
        ("content_id", Json.str "ct"),
        ("comments", Json.arr [Json.obj [("id", Json.str "c9"),
          ("message", Json.str "hi"),
          ("from", Json.obj [("name", Json.str "A")])]]),
        ("total_comments", Json.num 1)])]
      (sentimentKeyOf "comments:ct:p" (Json.str "c9")) = none ∧
    sentimentKeyOf "comments:ct:p" (Json.str "c9") ∈
      (⟨[], [], [], ["sentiment:comments:ct:p:c9"]⟩ : ALogs).errorKeys ∧
    sentimentKeyOf "comments:ct:p" (Json.str "c9") ∉
      (⟨[], [], [], ["sentiment:comments:ct:p:c9"]⟩ : ALogs).skippedKeys ∧
    1 ≤ (⟨1, 0, 0, 1, 0, 0, 0⟩ : AStats).errors ∧
    ∀ (svc2 : SentimentSvc) (now2 : String) (db2 : Store) (lg2 : ALogs)
      (st2 : AStats),
      analyze_all_comments svc2 now2 ([("comments:ct:p", Json.obj [("post_id", Json.str "p"),
        ("content_id", Json.str "ct"),
        ("comments", Json.arr [Json.obj [("id", Json.str "c9"),
          ("message", Json.str "hi"),
          ("from", Json.obj [("name", Json.str "A")])]]),
        ("total_comments", Json.num 1)])] : Store) false =
        (db2, lg2, some st2) →
      sentimentKeyOf "comments:ct:p" (Json.str "c9") ∉ lg2.skippedKeys ∧
      (sentimentKeyOf "comments:ct:p" (Json.str "c9") ∈ lg2.analyzedKeys ∨
        sentimentKeyOf "comments:ct:p" (Json.str "c9") ∈ lg2.errorKeys)) :=
  C10_failed_analysis ⟨false, fun _ => Except.error ""⟩ "t"
    ([("comments:ct:p", Json.obj [("post_id", Json.str "p"),
        ("content_id", Json.str "ct"),
        ("comments", Json.arr [Json.obj [("id", Json.str "c9"),
          ("message", Json.str "hi"),
          ("from", Json.obj [("name", Json.str "A")])]]),
        ("total_comments", Json.num 1)])] : Store)
    ⟨"comments:ct:p", Json.str "p", Json.str "ct", Json.str "c9",
      Json.str "hi", Json.str "A", Json.null, Json.num 0,
      Json.obj [("id", Json.str "c9"), ("message", Json.str "hi"),
        ("from", Json.obj [("name", Json.str "A")])]⟩
    ([("comments:ct:p", Json.obj [("post_id", Json.str "p"),
        ("content_id", Json.str "ct"),
        ("comments", Json.arr [Json.obj [("id", Json.str "c9"),
          ("message", Json.str "hi"),
          ("from", Json.obj [("name", Json.str "A")])]]),
        ("total_comments", Json.num 1)])] : Store)
    ⟨[], [], [], ["sentiment:comments:ct:p:c9"]⟩
    ⟨1, 0, 0, 1, 0, 0, 0⟩
    (by decide)
    ⟨[("sentiment", Json.str "neutral"), ("confidence", Json.num 0),
      ("error", Json.str "OpenAI client not initialized")], [],
      by decide, by decide⟩
    (by decide)
    (by decide)
    (by decide)

/-! ## C5 — cleanup completeness -/

/-- C5 (counterexample): after `delete_comment_from_db` for comment `c1`,
the Sentiment Record and Reply Record are gone, but the comment's entry
inside the Comment Snapshot value survives — snapshot keys
(`comments:<contentId>:<postId>`) do not contain the comment id, and the
function only matches ids against keys — so a full scan still contains a
record referencing `c1`. -/
theorem C5_counterexample :
    (delete_comment_from_db
      [("comments:ct1:p1", Json.obj [("post_id", Json.str "p1"),
          ("content_id", Json.str "ct1"),
          ("comments", Json.arr [Json.obj [("id", Json.str "c1"),
            ("message", Json.str "hi")]]),
          ("total_comments", Json.num 1)]),
       ("sentiment:comments:ct1:p1:c1",
          Json.obj [("comment_id", Json.str "c1"),
            ("sentiment", Json.str "positive")]),
       ("reply:comments:ct1:p1:c1", Json.obj [("comment_id", Json.str "c1")])]
      (Json.str "c1")).1.any (referencesId "c1") = true ∧
    (delete_comment_from_db
      [("comments:ct1:p1", Json.obj [("post_id", Json.str "p1"),
          ("content_id", Json.str "ct1"),
          ("comments", Json.arr [Json.obj [("id", Json.str "c1"),
            ("message", Json.str "hi")]]),
          ("total_comments", Json.num 1)]),
       ("sentiment:comments:ct1:p1:c1",
          Json.obj [("comment_id", Json.str "c1"),
            ("sentiment", Json.str "positive")]),
       ("reply:comments:ct1:p1:c1", Json.obj [("comment_id", Json.str "c1")])]
      (Json.str "c1")).1.get? "sentiment:comments:ct1:p1:c1" = none ∧
    (delete_comment_from_db
      [("comments:ct1:p1", Json.obj [("post_id", Json.str "p1"),
          ("content_id", Json.str "ct1"),
          ("comments", Json.arr [Json.obj [("id", Json.str "c1"),
            ("message", Json.str "hi")]]),
          ("total_comments", Json.num 1)]),
       ("sentiment:comments:ct1:p1:c1",
          Json.obj [("comment_id", Json.str "c1"),
            ("sentiment", Json.str "positive")]),
       ("reply:comments:ct1:p1:c1", Json.obj [("comment_id", Json.str "c1")])]
      (Json.str "c1")).1.get? "reply:comments:ct1:p1:c1" = none ∧
    jsonMentions "c1"
      (((delete_comment_from_db
        [("comments:ct1:p1", Json.obj [("post_id", Json.str "p1"),
            ("content_id", Json.str "ct1"),
            ("comments", Json.arr [Json.obj [("id", Json.str "c1"),
              ("message", Json.str "hi")]]),
            ("total_comments", Json.num 1)]),
         ("sentiment:comments:ct1:p1:c1",
            Json.obj [("comment_id", Json.str "c1"),
              ("sentiment", Json.str "positive")]),
         ("reply:comments:ct1:p1:c1", Json.obj [("comment_id", Json.str "c1")])]
        (Json.str "c1")).1.get? "comments:ct1:p1").getD Json.null) = true := by
  refine ⟨by decide, by decide, by decide, by decide⟩

/-- C5 (amended): `delete_comment_from_db` deletes exactly the records whose
key contains the comment id — in particular every `sentiment:*:<id>` and
`reply:*:<id>` record — and keeps every other record untouched; the
Comment Snapshot record, whose key does not mention comment ids, is also
never deleted by the standalone variant, whose prefix filter
(`comment:`/`sentiment:`/`reply:`) does not match `comments:*` keys. -/
theorem C5_amended_cleanup_scope (db : Store) (s : String) (cid : Json) :
    (∀ p ∈ (delete_comment_from_db db (Json.str s)).1,
      strContains s p.1 = false) ∧
    (∀ p ∈ db, strContains s p.1 = false →
      p ∈ (delete_comment_from_db db (Json.str s)).1) ∧
    (∀ p ∈ (delete_comment_from_db db (Json.str s)).1, p ∈ db) ∧
    (∀ p ∈ db, strStartsWith "comments:" p.1 = true →
      p ∈ (delete_comment_from_db_standalone db cid).1) := by
  refine ⟨?_, ?_, ?_, ?_⟩
  · intro p hp
    rw [delete_comment_from_db] at hp
    rw [List.mem_filter] at hp
    simpa using hp.2
  · intro p hp hs
    rw [delete_comment_from_db]
    rw [List.mem_filter]
    exact ⟨hp, by simpa using hs⟩
  · intro p hp
    rw [delete_comment_from_db] at hp
    exact (List.mem_filter.mp hp).1
  · intro p hp hpre
    have h1 : strStartsWith "comment:" p.1 = false := by
      by_contra hc
      rw [Bool.not_eq_false] at hc
      have := starts_conflict hc hpre (by decide)
      revert this
      decide
    have h2 : strStartsWith "sentiment:" p.1 = false := by
      by_contra hc
      rw [Bool.not_eq_false] at hc
      have := starts_conflict hpre hc (by decide)
      revert this
      decide
    have h3 : strStartsWith "reply:" p.1 = false := by
      by_contra hc
      rw [Bool.not_eq_false] at hc
      have := starts_conflict hc hpre (by decide)
      revert this
      decide
    rw [delete_comment_from_db_standalone]
    simp only
    rw [List.mem_filter]
    exact ⟨hp, by simp [h1, h2, h3]⟩

/-- C5 (witness for the amended theorem): on the concrete store of the
counterexample, the snapshot record survives cleanup. -/
theorem C5_amended_witness :
    ("comments:ct1:p1", Json.obj [("comments", Json.arr [Json.obj
      [("id", Json.str "c1")]])]) ∈
      ([("comments:ct1:p1", Json.obj [("comments", Json.arr [Json.obj
          [("id", Json.str "c1")]])]),
        ("reply:k:c1", Json.obj [("comment_id", Json.str "c1")])] : Store) ∧
    strContains "c1" "comments:ct1:p1" = false ∧
    ("comments:ct1:p1", Json.obj [("comments", Json.arr [Json.obj
      [("id", Json.str "c1")]])]) ∈
      (delete_comment_from_db
        [("comments:ct1:p1", Json.obj [("comments", Json.arr [Json.obj
            [("id", Json.str "c1")]])]),
         ("reply:k:c1", Json.obj [("comment_id", Json.str "c1")])]
        (Json.str "c1")).1 :=
  ⟨by decide, by decide,
    (C5_amended_cleanup_scope
      [("comments:ct1:p1", Json.obj [("comments", Json.arr [Json.obj
          [("id", Json.str "c1")]])]),
       ("reply:k:c1", Json.obj [("comment_id", Json.str "c1")])]
      "c1" Json.null).2.1
      ("comments:ct1:p1", Json.obj [("comments", Json.arr [Json.obj
        [("id", Json.str "c1")]])])
      (by decide) (by decide)⟩

/-! ## C9 — fallback on unparseable classifier output -/

/-- C9 (counterexample): when the service output cannot be parsed, the
standalone `classify_comment_type` substitutes `type = "unknown"` (not
`"general"`), and reply.py's `classify_comment_type` substitutes the
emoji-decorated reply together with an `error` marker — neither equals the
claimed substitute `{type: general, reply: "Thank you for your
comment!"}`. -/
theorem C9_counterexample :
    classify_comment_type_standalone
      { hasClient := true, classify := fun _ => Except.ok none, apps := [],
        fbPost := fun _ _ => Except.error "x", ts := 0, now := "n" }
      (Json.str "hello") =
      Json.obj [("type", Json.str "unknown"),
        ("reply", Json.str "Thank you for your comment!")] ∧
    Json.obj [("type", Json.str "unknown"),
        ("reply", Json.str "Thank you for your comment!")] ≠
      Json.obj [("type", Json.str "general"),
        ("reply", Json.str "Thank you for your comment!")] ∧
    classify_comment_type
      { hasClient := true, classify := fun _ => Except.ok none, apps := [],
        fb := fun _ _ => Except.error "x", now := "n" }
      (Json.str "hello") =
      some (Json.obj [("type", Json.str "general"),
        ("reply", Json.str "Thank you for your comment! 😊"),
        ("error", Json.str "JSON parsing failed"),
        ("generated_at", Json.str "n")]) := by
  refine ⟨by decide, by decide, by decide⟩

/-- C9 (amended): on unparseable service output both classifiers substitute
a fixed fallback instead of raising: the standalone variant returns
`{type: "unknown", reply: "Thank you for your comment!"}`, and reply.py's
variant returns `{type: "general", reply: "Thank you for your comment!
😊"}` together with an `error` marker (`"JSON parsing failed"`) that makes
`reply_to_comments` count the comment as an error and move on rather than
post the fallback. -/
theorem C9_amended_fallbacks (env : ReplyEnv) (sa : SaEnv) (m : String)
    (henv : env.hasClient = true) (hsa : sa.hasClient = true)
    (hm : strTrim m ≠ "") (hc : env.classify (Json.str m) = Except.ok none)
    (hcsa : sa.classify (Json.str m) = Except.ok none) :
    classify_comment_type env (Json.str m) =
      some (Json.obj [("type", Json.str "general"),
        ("reply", Json.str "Thank you for your comment! 😊"),
        ("error", Json.str "JSON parsing failed"),
        ("generated_at", Json.str env.now)]) ∧
    classify_comment_type_standalone sa (Json.str m) =
      Json.obj [("type", Json.str "unknown"),
        ("reply", Json.str "Thank you for your comment!")] := by
  have hm0 : m ≠ "" := by
    intro h
    apply hm
    rw [h]
    decide
  constructor
  · rw [classify_comment_type, henv]
    simp only [Json.truthy, hm0, if_false, if_neg hm, hc]
    simp [hm0]
  · rw [classify_comment_type_standalone, hsa]
    simp [hcsa]

/-- C9 (witness for the amended theorem): concrete environments whose
service returns unparseable output. -/
theorem C9_amended_witness :
    (true = true ∧ strTrim "hello" ≠ "") ∧
    classify_comment_type
      { hasClient := true, classify := fun _ => Except.ok none, apps := [],
        fb := fun _ _ => Except.error "x", now := "n" }
      (Json.str "hello") =
      some (Json.obj [("type", Json.str "general"),
        ("reply", Json.str "Thank you for your comment! 😊"),
        ("error", Json.str "JSON parsing failed"),
        ("generated_at", Json.str "n")]) ∧
    classify_comment_type_standalone
      { hasClient := true, classify := fun _ => Except.ok none, apps := [],
        fbPost := fun _ _ => Except.error "x", ts := 0, now := "n" }
      (Json.str "hello") =
      Json.obj [("type", Json.str "unknown"),
        ("reply", Json.str "Thank you for your comment!")] :=
  ⟨⟨rfl, by decide⟩,
    (C9_amended_fallbacks
      { hasClient := true, classify := fun _ => Except.ok none, apps := [],
        fb := fun _ _ => Except.error "x", now := "n" }
      { hasClient := true, classify := fun _ => Except.ok none, apps := [],
        fbPost := fun _ _ => Except.error "x", ts := 0, now := "n" }
      "hello" rfl rfl (by decide) rfl rfl).1,
    (C9_amended_fallbacks
      { hasClient := true, classify := fun _ => Except.ok none, apps := [],
        fb := fun _ _ => Except.error "x", now := "n" }
      { hasClient := true, classify := fun _ => Except.ok none, apps := [],
        fbPost := fun _ _ => Except.error "x", ts := 0, now := "n" }
      "hello" rfl rfl (by decide) rfl rfl).2⟩

/-! ## C8 — per-candidate failures never abort the batch -/

-- On a string message every return path of `classify_comment_type` builds
-- a dict, so the loop's match on its result always takes the dict branch.
theorem classify_str_some (env : ReplyEnv) (m : String) :
    ∃ rifs, classify_comment_type env (Json.str m) = some (Json.obj rifs) := by
  simp only [classify_comment_type]
  repeat' split
  all_goals exact ⟨_, rfl⟩

-- A failed remote post whose error message is a string always gets a
-- verdict (true or false) from the not-found test: the predicate cannot
-- raise on the envelope the loop builds around it.
theorem notFound_on_message_str (err : String) :
    ∃ b, is_comment_not_found_error
      (Json.obj [("error", Json.obj [("message", Json.str err)])]) = some b :=
  ⟨_, rfl⟩

-- Every non-crashing loop iteration appends exactly one outcome tag,
-- bumps the errors tally exactly when that outcome is one of the three
-- per-candidate failures, and never touches the total / processed counts.
theorem replyStep1_shape (env : ReplyEnv) (c : Candidate) (db : Store)
    (st : RStats) (lg : List StepTag) (db2 : Store) (st2 : RStats)
    (lg2 : List StepTag)
    (h : replyStep1 env c db st lg = StepOut.next db2 st2 lg2) :
    ∃ tag, lg2 = lg ++ [tag] ∧
      st2.errors = st.errors + (if StepTag.isFailure tag then 1 else 0) ∧
      st2.processed = st.processed ∧ st2.total = st.total := by
  simp only [replyStep1, store_reply_in_db] at h
  repeat' split at h
  all_goals
    first
    | exact StepOut.noConfusion h
    | (simp only [StepOut.next.injEq] at h
       obtain ⟨h1, h2, h3⟩ := h
       subst h1
       subst h2
       subst h3
       exact ⟨_, rfl, rfl, rfl, rfl⟩)

-- Under the data-sanity condition `stepOk` an iteration cannot end in an
-- uncaught exception; in particular none of the three failure paths ever
-- aborts the loop.
theorem replyStep1_no_crash (env : ReplyEnv) (c : Candidate) (db : Store)
    (st : RStats) (lg : List StepTag) (h : stepOk env c) (db2 : Store) :
    replyStep1 env c db st lg ≠ StepOut.crash db2 := by
  obtain ⟨⟨m, hm⟩, h2⟩ := h
  obtain ⟨rifs, hcl⟩ := classify_str_some env m
  have h3 := h2 rifs (by rw [hm]; exact hcl)
  intro hcontra
  simp only [replyStep1, hm, hcl] at hcontra
  rw [if_neg (show ¬(true = false) by simp)] at hcontra
  by_cases herr : jHasKey rifs "error" = true
  · rw [if_pos herr] at hcontra
    exact StepOut.noConfusion hcontra
  · rw [if_neg herr] at hcontra
    rcases h3 with h3 | h3
    · exact herr h3
    · cases hpost : post_reply_to_facebook env c.comment_id
          (jlookupD rifs "reply" (Json.str "Thank you for your comment! 😊")) with
      | success rid =>
          simp only [hpost] at hcontra h3
          rcases h3 with h3 | h3 | h3 <;> rw [h3] at hcontra <;> simp at hcontra
      | failure err =>
          simp only [hpost] at hcontra h3
          obtain ⟨s, rfl⟩ := h3
          obtain ⟨b, hb⟩ := notFound_on_message_str s
          cases b with
          | true =>
              simp only [hb] at hcontra
              rcases hdel : delete_comment_from_db db c.comment_id with ⟨db3, del⟩
              simp only [hdel] at hcontra
              split at hcontra <;> exact StepOut.noConfusion hcontra
          | false =>
              simp only [hb] at hcontra
              exact StepOut.noConfusion hcontra

-- Under `stepOk` for every candidate of the batch the loop runs to the
-- end: one outcome per candidate, and the errors tally counts exactly the
-- failure outcomes.
theorem replyLoop_completes (env : ReplyEnv) :
    ∀ (cs : List Candidate) (db : Store) (st : RStats) (lg : List StepTag),
      (∀ c ∈ cs, stepOk env c) →
      ∃ db2 lg2 st2, replyLoop env cs db st lg = (db2, lg ++ lg2, some st2) ∧
        lg2.length = cs.length ∧
        st2.errors = st.errors + (lg2.filter StepTag.isFailure).length ∧
        st2.processed = st.processed ∧ st2.total = st.total := by
  intro cs
  induction cs with
  | nil =>
      intro db st lg h
      exact ⟨db, [], st, by simp [replyLoop], rfl, rfl, rfl, rfl⟩
  | cons c rest ih =>
      intro db st lg h
      rw [replyLoop_cons]
      cases hstep : replyStep1 env c db st lg with
      | crash db2 =>
          exact absurd hstep
            (replyStep1_no_crash env c db st lg
              (h c (List.mem_cons_self c rest)) db2)
      | next db2 st2 lg2 =>
          obtain ⟨tag, hlg2, herr, hproc, htot⟩ :=
            replyStep1_shape env c db st lg db2 st2 lg2 hstep
          obtain ⟨db3, lg3, st3, hrun, hlen, herr3, hproc3, htot3⟩ :=
            ih db2 st2 lg2 (fun d hd => h d (List.mem_cons_of_mem c hd))
          subst hlg2
          refine ⟨db3, tag :: lg3, st3, ?_, ?_, ?_, ?_, ?_⟩
          · show replyLoop env rest db2 st2 (lg ++ [tag]) =
              (db3, lg ++ tag :: lg3, some st3)
            rw [hrun]
            simp
          · simp [hlen]
          · rw [herr3, herr, List.filter_cons]
            cases htag : StepTag.isFailure tag <;> simp [htag] <;> omega
          · rw [hproc3, hproc]
          · rw [htot3, htot]

/-- C8: during one `reply_to_comments` run every per-candidate failure —
reply drafting failed (`error` in the draft), remote post failed for a
non-missing reason, or cleanup of a missing comment failed — increments
the report's errors count and processing continues with the next
candidate: under per-candidate data sanity (`stepOk`: a string message, a
string post-error message, and a tallied reply type on success — the
conditions every non-crashing path needs anyway), the run always returns
a stats report (it never aborts), logs exactly one outcome per selected
candidate (`min max_replies` and the candidate count), and its errors
tally equals exactly the number of failure outcomes in the log. -/
theorem C8_failures_do_not_abort (env : ReplyEnv) (db : Store)
    (maxReplies : Nat)
    (h : ∀ c ∈ (get_comments_to_reply db).take maxReplies, stepOk env c) :
    ∃ db2 lg st, reply_to_comments env db maxReplies = (db2, lg, some st) ∧
      lg.length = min maxReplies (get_comments_to_reply db).length ∧
      st.errors = (lg.filter StepTag.isFailure).length ∧
      st.processed = lg.length := by
  simp only [reply_to_comments]
  by_cases he : (get_comments_to_reply db).isEmpty
  · rw [if_pos he]
    refine ⟨db, [], RStats.zero, rfl, ?_, rfl, rfl⟩
    rw [List.isEmpty_iff] at he
    rw [he]
    simp
  · rw [if_neg he]
    obtain ⟨db2, lg2, st2, hrun, hlen, herr, hproc, -⟩ :=
      replyLoop_completes env ((get_comments_to_reply db).take maxReplies) db
        { RStats.zero with
            total := (get_comments_to_reply db).length
            processed := ((get_comments_to_reply db).take maxReplies).length }
        [] h
    refine ⟨db2, lg2, st2, ?_, ?_, ?_, ?_⟩
    · rw [hrun]
      simp
    · rw [hlen, List.length_take]
    · rw [herr]
      simp [RStats.zero]
    · rw [hproc, hlen]

/-- C8 (witness): a batch of three candidates that all fail — a drafting
error, a post rejected for a non-missing reason, and a failed cleanup of a
missing comment — is processed to the end with three outcomes and three
tallied errors. -/
theorem C8_witness :
    ∃ db2 lg st,
      reply_to_comments
        (⟨true,
      fun t => if t = Json.str "m1" then Except.error "API down"
        else Except.ok (some (Json.obj [("type", Json.str "general"),
          ("reply", Json.str "ok")])),
      [[("password", Json.str "tok")]],
      fun cid _ => if cid = Json.str "idB" then
          Except.ok (Json.obj [("error",
            Json.obj [("message", Json.str "rate limited")])])
        else
          Except.ok (Json.obj [("error",
            Json.obj [("message", Json.str "object does not exist")])]),
      "T"⟩ : ReplyEnv)
        [("sentiment:k1", Json.obj [("comment_id", Json.str "idA"),
        ("comment_key", Json.str "ck1"), ("message", Json.str "m1"),
        ("sentiment", Json.str "positive")]),
     ("sentiment:k2", Json.obj [("comment_id", Json.str "idB"),
        ("comment_key", Json.str "ck2"), ("message", Json.str "m2"),
        ("sentiment", Json.str "neutral")]),
     ("sentiment:k3", Json.obj [("comment_id", Json.str "idC"),
        ("comment_key", Json.str "ck3"), ("message", Json.str "m3"),
        ("sentiment", Json.str "positive")])] 10 = (db2, lg, some st) ∧
      lg.length = min 10 (get_comments_to_reply
        [("sentiment:k1", Json.obj [("comment_id", Json.str "idA"),
        ("comment_key", Json.str "ck1"), ("message", Json.str "m1"),
        ("sentiment", Json.str "positive")]),
     ("sentiment:k2", Json.obj [("comment_id", Json.str "idB"),
        ("comment_key", Json.str "ck2"), ("message", Json.str "m2"),
        ("sentiment", Json.str "neutral")]),
     ("sentiment:k3", Json.obj [("comment_id", Json.str "idC"),
        ("comment_key", Json.str "ck3"), ("message", Json.str "m3"),
        ("sentiment", Json.str "positive")])]).length ∧
      st.errors = (lg.filter StepTag.isFailure).length ∧
      st.processed = lg.length :=
  C8_failures_do_not_abort
    (⟨true,
      fun t => if t = Json.str "m1" then Except.error "API down"
        else Except.ok (some (Json.obj [("type", Json.str "general"),
          ("reply", Json.str "ok")])),
      [[("password", Json.str "tok")]],
      fun cid _ => if cid = Json.str "idB" then
          Except.ok (Json.obj [("error",
            Json.obj [("message", Json.str "rate limited")])])
        else
          Except.ok (Json.obj [("error",
            Json.obj [("message", Json.str "object does not exist")])]),
      "T"⟩ : ReplyEnv)
    [("sentiment:k1", Json.obj [("comment_id", Json.str "idA"),
        ("comment_key", Json.str "ck1"), ("message", Json.str "m1"),
        ("sentiment", Json.str "positive")]),
     ("sentiment:k2", Json.obj [("comment_id", Json.str "idB"),
        ("comment_key", Json.str "ck2"), ("message", Json.str "m2"),
        ("sentiment", Json.str "neutral")]),
     ("sentiment:k3", Json.obj [("comment_id", Json.str "idC"),
        ("comment_key", Json.str "ck3"), ("message", Json.str "m3"),
        ("sentiment", Json.str "positive")])] 10
    (by
      intro c hc
      have hcand : ((get_comments_to_reply
          [("sentiment:k1", Json.obj [("comment_id", Json.str "idA"),
        ("comment_key", Json.str "ck1"), ("message", Json.str "m1"),
        ("sentiment", Json.str "positive")]),
     ("sentiment:k2", Json.obj [("comment_id", Json.str "idB"),
        ("comment_key", Json.str "ck2"), ("message", Json.str "m2"),
        ("sentiment", Json.str "neutral")]),
     ("sentiment:k3", Json.obj [("comment_id", Json.str "idC"),
        ("comment_key", Json.str "ck3"), ("message", Json.str "m3"),
        ("sentiment", Json.str "positive")])]).take 10) =
          [⟨Json.str "idA", Json.str "ck1", Json.str "m1", Json.str "Unknown",
            Json.null, Json.str "positive"⟩,
           ⟨Json.str "idB", Json.str "ck2", Json.str "m2", Json.str "Unknown",
            Json.null, Json.str "neutral"⟩,
           ⟨Json.str "idC", Json.str "ck3", Json.str "m3", Json.str "Unknown",
            Json.null, Json.str "positive"⟩] := by decide
      rw [hcand] at hc
      simp only [List.mem_cons, List.not_mem_nil, or_false] at hc
      rcases hc with rfl | rfl | rfl
      · refine ⟨⟨"m1", rfl⟩, ?_⟩
        intro rifs hr
        have hr2 : classify_comment_type
            (⟨true,
      fun t => if t = Json.str "m1" then Except.error "API down"
        else Except.ok (some (Json.obj [("type", Json.str "general"),
          ("reply", Json.str "ok")])),
      [[("password", Json.str "tok")]],
      fun cid _ => if cid = Json.str "idB" then
          Except.ok (Json.obj [("error",
            Json.obj [("message", Json.str "rate limited")])])
        else
          Except.ok (Json.obj [("error",
            Json.obj [("message", Json.str "object does not exist")])]),
      "T"⟩ : ReplyEnv)
            (Json.str "m1") = some (Json.obj rifs) := hr
        have hv : classify_comment_type
            (⟨true,
      fun t => if t = Json.str "m1" then Except.error "API down"
        else Except.ok (some (Json.obj [("type", Json.str "general"),
          ("reply", Json.str "ok")])),
      [[("password", Json.str "tok")]],
      fun cid _ => if cid = Json.str "idB" then
          Except.ok (Json.obj [("error",
            Json.obj [("message", Json.str "rate limited")])])
        else
          Except.ok (Json.obj [("error",
            Json.obj [("message", Json.str "object does not exist")])]),
      "T"⟩ : ReplyEnv)
            (Json.str "m1") = some (Json.obj [("type", Json.str "general"),
              ("reply", Json.str "Thank you for your comment! 😊"),
              ("error", Json.str "API down"),
              ("generated_at", Json.str "T")]) := by decide
        rw [hv] at hr2
        have h2 := Option.some.inj hr2
        injection h2 with h3
        subst h3
        exact Or.inl (by decide)
      · refine ⟨⟨"m2", rfl⟩, ?_⟩
        intro rifs hr
        have hr2 : classify_comment_type
            (⟨true,
      fun t => if t = Json.str "m1" then Except.error "API down"
        else Except.ok (some (Json.obj [("type", Json.str "general"),
          ("reply", Json.str "ok")])),
      [[("password", Json.str "tok")]],
      fun cid _ => if cid = Json.str "idB" then
          Except.ok (Json.obj [("error",
            Json.obj [("message", Json.str "rate limited")])])
        else
          Except.ok (Json.obj [("error",
            Json.obj [("message", Json.str "object does not exist")])]),
      "T"⟩ : ReplyEnv)
            (Json.str "m2") = some (Json.obj rifs) := hr
        have hv : classify_comment_type
            (⟨true,
      fun t => if t = Json.str "m1" then Except.error "API down"
        else Except.ok (some (Json.obj [("type", Json.str "general"),
          ("reply", Json.str "ok")])),
      [[("password", Json.str "tok")]],
      fun cid _ => if cid = Json.str "idB" then
          Except.ok (Json.obj [("error",
            Json.obj [("message", Json.str "rate limited")])])
        else
          Except.ok (Json.obj [("error",
            Json.obj [("message", Json.str "object does not exist")])]),
      "T"⟩ : ReplyEnv)
            (Json.str "m2") = some (Json.obj [("type", Json.str "general"),
              ("reply", Json.str "ok"),
              ("generated_at", Json.str "T")]) := by decide
        rw [hv] at hr2
        have h2 := Option.some.inj hr2
        injection h2 with h3
        subst h3
        exact Or.inr ⟨"rate limited", rfl⟩
      · refine ⟨⟨"m3", rfl⟩, ?_⟩
        intro rifs hr
        have hr2 : classify_comment_type
            (⟨true,
      fun t => if t = Json.str "m1" then Except.error "API down"
        else Except.ok (some (Json.obj [("type", Json.str "general"),
          ("reply", Json.str "ok")])),
      [[("password", Json.str "tok")]],
      fun cid _ => if cid = Json.str "idB" then
          Except.ok (Json.obj [("error",
            Json.obj [("message", Json.str "rate limited")])])
        else
          Except.ok (Json.obj [("error",
            Json.obj [("message", Json.str "object does not exist")])]),
      "T"⟩ : ReplyEnv)
            (Json.str "m3") = some (Json.obj rifs) := hr
        have hv : classify_comment_type
            (⟨true,
      fun t => if t = Json.str "m1" then Except.error "API down"
        else Except.ok (some (Json.obj [("type", Json.str "general"),
          ("reply", Json.str "ok")])),
      [[("password", Json.str "tok")]],
      fun cid _ => if cid = Json.str "idB" then
          Except.ok (Json.obj [("error",
            Json.obj [("message", Json.str "rate limited")])])
        else
          Except.ok (Json.obj [("error",
            Json.obj [("message", Json.str "object does not exist")])]),
      "T"⟩ : ReplyEnv)
            (Json.str "m3") = some (Json.obj [("type", Json.str "general"),
              ("reply", Json.str "ok"),
              ("generated_at", Json.str "T")]) := by decide
        rw [hv] at hr2
        have h2 := Option.some.inj hr2
        injection h2 with h3
        subst h3
        exact Or.inr ⟨"object does not exist", rfl⟩)

/-! ## C1 — no reply for negative sentiment -/

-- The classifier returns either nothing (uncaught exception) or a dict.
theorem classify_obj_or_none (env : ReplyEnv) (t : Json) :
    classify_comment_type env t = none ∨
    ∃ rifs, classify_comment_type env t = some (Json.obj rifs) := by
  simp only [classify_comment_type]
  repeat' split
  all_goals first
  | exact Or.inl rfl
  | exact Or.inr ⟨_, rfl⟩

-- No branch of the classifier puts a `comment_id` key into its result, so
-- the `{**base, **reply_info}` merge of the loop cannot override the
-- candidate's id in the stored reply record.
theorem classify_no_cid (env : ReplyEnv) (t : Json) (rifs : List (String × Json))
    (h : classify_comment_type env t = some (Json.obj rifs)) :
    jHasKey rifs "comment_id" = false := by
  simp only [classify_comment_type] at h
  repeat' split at h
  all_goals first
  | exact Option.noConfusion h
  | (simp only [Option.some.injEq, Json.obj.injEq] at h
     subst h
     rfl)

-- `{**base, **override}` keeps the head binding of `base` for a key the
-- override does not mention.
theorem objUnion_lookup_head (x : Json) (rest override : List (String × Json))
    (hno : jHasKey override "comment_id" = false) :
    jlookup (objUnion (("comment_id", x) :: rest) override) "comment_id" =
      some x := by
  have hall : (override.all fun q => decide (q.1 ≠ "comment_id")) = true := by
    simp only [jHasKey] at hno
    simp only [List.all_eq_true, decide_eq_true_eq]
    intro q hq h1
    rw [List.any_eq_false] at hno
    exact hno q hq (by rw [h1]; rfl)
  simp only [objUnion, List.filter_cons]
  rw [if_pos hall]
  rfl

-- Writing one reply record for a different comment id adds no reply
-- record for `cid0` and no `sentiment:*` record.
theorem set_reply_origin (db : Store) (cid0 ck cid : Json)
    (fs2 : List (String × Json)) (hne : (cid == cid0) = false)
    (hcid : jlookupD fs2 "comment_id" Json.null = cid) :
    ∀ p ∈ db.set (replyKeyOf ck cid) (Json.obj fs2),
      (isReplyRecFor cid0 p = true ∨ strStartsWith "sentiment:" p.1 = true) →
      p ∈ db := by
  intro p hp hrec
  rcases mem_set db _ _ p hp with heq | hin
  · exfalso
    subst heq
    rcases hrec with hrec | hrec
    · have hrec2 : (strStartsWith "reply:" (replyKeyOf ck cid) &&
          (jlookupD fs2 "comment_id" Json.null == cid0)) = true := hrec
      rw [Bool.and_eq_true, hcid, hne] at hrec2
      exact Bool.noConfusion hrec2.2
    · have hrec2 : strStartsWith "sentiment:" (replyKeyOf ck cid) = true := hrec
      rw [not_sentiment_starts_of_reply (replyKeyOf_starts ck cid)] at hrec2
      exact Bool.noConfusion hrec2
  · exact hin

-- Cleanup only removes records.
theorem delete_subset (db : Store) (cid : Json) :
    ∀ p ∈ (delete_comment_from_db db cid).1, p ∈ db := by
  intro p hp
  cases cid <;>
    first
    | exact hp
    | exact (List.mem_filter.mp hp).1

-- One iteration on a candidate whose id differs from `cid0` creates no
-- reply record for `cid0` and no `sentiment:*` record, whatever its
-- outcome (uncaught exceptions included).
theorem replyStep1_origin (env : ReplyEnv) (c : Candidate) (db : Store)
    (st : RStats) (lg : List StepTag) (cid0 : Json)
    (hne : (c.comment_id == cid0) = false) (out : StepOut)
    (hout : replyStep1 env c db st lg = out) :
    ∀ p ∈ StepOut.db out,
      (isReplyRecFor cid0 p = true ∨ strStartsWith "sentiment:" p.1 = true) →
      p ∈ db := by
  simp only [replyStep1, store_reply_in_db] at hout
  split at hout
  · rw [← hout]
    intro p hp _
    exact hp
  · rcases classify_obj_or_none env c.message with hcm | ⟨rifs, hcm⟩
    · simp only [hcm] at hout
      rw [← hout]
      intro p hp _
      exact hp
    · simp only [hcm] at hout
      by_cases herr : jHasKey rifs "error" = true
      · rw [if_pos herr] at hout
        rw [← hout]
        intro p hp _
        exact hp
      · rw [if_neg herr] at hout
        cases hpost : post_reply_to_facebook env c.comment_id
            (jlookupD rifs "reply" (Json.str "Thank you for your comment! 😊")) with
        | success rid =>
            simp only [hpost] at hout
            repeat' split at hout
            all_goals
              (rw [← hout]
               intro p hp hrec
               refine set_reply_origin db cid0 c.comment_key c.comment_id _
                 hne ?_ p hp hrec
               rw [jlookupD, objUnion_lookup_head c.comment_id _ rifs
                 (classify_no_cid env c.message rifs hcm)]
               rfl)
        | failure err =>
            simp only [hpost] at hout
            cases hnf : is_comment_not_found_error
                (Json.obj [("error", Json.obj [("message", err)])]) with
            | none =>
                simp only [hnf] at hout
                rw [← hout]
                intro p hp _
                exact hp
            | some b =>
                simp only [hnf] at hout
                cases b with
                | false =>
                    rw [← hout]
                    intro p hp _
                    exact hp
                | true =>
                    rcases hdel : delete_comment_from_db db c.comment_id with
                      ⟨db3, del⟩
                    simp only [hdel] at hout
                    split at hout <;>
                      (rw [← hout]
                       intro p hp _
                       refine delete_subset db c.comment_id p ?_
                       rw [hdel]
                       exact hp)

-- Over a candidate batch that never targets `cid0`, the loop creates no
-- reply record for `cid0` and no `sentiment:*` record (completed or
-- crashed runs alike).
theorem replyLoop_origin (env : ReplyEnv) (cid0 : Json) :
    ∀ (cs : List Candidate) (db : Store) (st : RStats) (lg : List StepTag),
      (∀ c ∈ cs, (c.comment_id == cid0) = false) →
      ∀ p ∈ (replyLoop env cs db st lg).1,
        (isReplyRecFor cid0 p = true ∨ strStartsWith "sentiment:" p.1 = true) →
        p ∈ db := by
  intro cs
  induction cs with
  | nil =>
      intro db st lg _ p hp _
      exact hp
  | cons c rest ih =>
      intro db st lg h p hp hrec
      rw [replyLoop_cons] at hp
      cases hstep : replyStep1 env c db st lg with
      | crash db2 =>
          rw [hstep] at hp
          exact replyStep1_origin env c db st lg cid0
            (h c (List.mem_cons_self c rest)) (StepOut.crash db2) hstep p hp hrec
      | next db2 st2 lg2 =>
          rw [hstep] at hp
          have hdb2 := ih db2 st2 lg2
            (fun d hd => h d (List.mem_cons_of_mem c hd)) p hp hrec
          exact replyStep1_origin env c db st lg cid0
            (h c (List.mem_cons_self c rest)) (StepOut.next db2 st2 lg2) hstep
            p hdb2 hrec

-- One full `reply_to_comments` run, when no selected candidate targets
-- `cid0`: same conclusion.
theorem reply_run_origin (env : ReplyEnv) (db : Store) (maxR : Nat)
    (cid0 : Json)
    (h : ∀ c ∈ get_comments_to_reply db, (c.comment_id == cid0) = false) :
    ∀ p ∈ (reply_to_comments env db maxR).1,
      (isReplyRecFor cid0 p = true ∨ strStartsWith "sentiment:" p.1 = true) →
      p ∈ db := by
  intro p hp hrec
  simp only [reply_to_comments] at hp
  split at hp
  · exact hp
  · exact replyLoop_origin env cid0 _ db _ [] 
      (fun c hc => h c (List.take_subset _ _ hc)) p hp hrec

-- Every candidate of the second pass of `get_comments_to_reply` originates
-- in a `sentiment:*` record of the store, carries that record's
-- `comment_id` and `sentiment` (default `neutral`), and was selected only
-- because that sentiment is positive or neutral.
theorem candidatesOf_origin (replied : List Json) :
    ∀ (db : Store) (c : Candidate), c ∈ candidatesOf replied db →
      (c.sentiment = Json.str "positive" ∨ c.sentiment = Json.str "neutral") ∧
      ∃ k fs, (k, Json.obj fs) ∈ db ∧ strStartsWith "sentiment:" k = true ∧
        c.comment_id = jlookupD fs "comment_id" Json.null ∧
        c.sentiment = jlookupD fs "sentiment" (Json.str "neutral") := by
  intro db
  induction db with
  | nil =>
      intro c hc
      cases hc
  | cons e rest ih =>
      intro c hc
      obtain ⟨k, v⟩ := e
      simp only [candidatesOf] at hc
      rcases List.mem_append.mp hc with hin | hin
      · by_cases hk : strStartsWith "sentiment:" k = true
        · rw [if_pos hk] at hin
          split at hin
          · rename_i fs
            by_cases hsel :
                ((jlookupD fs "sentiment" (Json.str "neutral") =
                    Json.str "positive" ∨
                  jlookupD fs "sentiment" (Json.str "neutral") =
                    Json.str "neutral") ∧
                 jmem (jlookupD fs "comment_id" Json.null) replied = false)
            · rw [if_pos hsel] at hin
              rw [List.mem_singleton] at hin
              subst hin
              exact ⟨hsel.1, k, fs, List.mem_cons_self _ _, hk, rfl, rfl⟩
            · rw [if_neg hsel] at hin
              cases hin
          · cases hin
        · rw [if_neg hk] at hin
          cases hin
      · obtain ⟨h1, k2, fs2, hm, hk2, hc2, hs2⟩ := ih c hin
        exact ⟨h1, k2, fs2, List.mem_cons_of_mem _ hm, hk2, hc2, hs2⟩

-- When every stored Sentiment Record for `cid0` says `negative`, no
-- candidate of `get_comments_to_reply` targets `cid0`.
theorem no_negative_candidates (db : Store) (cid0 : Json)
    (hneg : ∀ k fs, (k, Json.obj fs) ∈ db → strStartsWith "sentiment:" k = true →
      jlookupD fs "comment_id" Json.null = cid0 →
      jlookupD fs "sentiment" (Json.str "neutral") = Json.str "negative") :
    ∀ c ∈ get_comments_to_reply db, (c.comment_id == cid0) = false := by
  intro c hc
  rw [get_comments_to_reply] at hc
  obtain ⟨hsent, k, fs, hmem, hk, hcid, hs⟩ :=
    candidatesOf_origin (repliedSet db) db c hc
  by_contra hbe
  rw [Bool.not_eq_false] at hbe
  have heq : c.comment_id = cid0 := eq_of_beq hbe
  have hnegv := hneg k fs hmem hk (by rw [← hcid, heq])
  rw [hnegv] at hs
  rw [hs] at hsent
  rcases hsent with h | h <;> simp at h

-- Any number of reply-engine invocations on a store whose Sentiment
-- Records for `cid0` all say `negative`: no reply record for `cid0` (and
-- no `sentiment:*` record) appears that was not already in the store.
theorem runEngine_no_reply_for (cid0 : Json) :
    ∀ (runs : List (ReplyEnv × Nat)) (db : Store),
      (∀ k fs, (k, Json.obj fs) ∈ db → strStartsWith "sentiment:" k = true →
        jlookupD fs "comment_id" Json.null = cid0 →
        jlookupD fs "sentiment" (Json.str "neutral") = Json.str "negative") →
      ∀ p ∈ runEngine runs db,
        (isReplyRecFor cid0 p = true ∨ strStartsWith "sentiment:" p.1 = true) →
        p ∈ db := by
  intro runs
  induction runs with
  | nil =>
      intro db _ p hp _
      exact hp
  | cons r rest ih =>
      intro db hneg p hp hrec
      obtain ⟨env, maxR⟩ := r
      simp only [runEngine] at hp
      have hstep := reply_run_origin env db maxR cid0
        (no_negative_candidates db cid0 hneg)
      have hneg2 : ∀ k fs, (k, Json.obj fs) ∈ (reply_to_comments env db maxR).1 →
          strStartsWith "sentiment:" k = true →
          jlookupD fs "comment_id" Json.null = cid0 →
          jlookupD fs "sentiment" (Json.str "neutral") = Json.str "negative" :=
        fun k fs hm hk hcid => hneg k fs (hstep (k, Json.obj fs) hm (Or.inr hk))
          hk hcid
      exact hstep p (ih (reply_to_comments env db maxR).1 hneg2 p hp hrec) hrec

-- A record whose `sentiment` defaults to `negative` under the reply.py
-- default (`neutral`) also reads `negative` under the standalone default
-- (`None`): the key must be present.
theorem jlookupD_negative (fs : List (String × Json))
    (h : jlookupD fs "sentiment" (Json.str "neutral") = Json.str "negative") :
    jlookupD fs "sentiment" Json.null = Json.str "negative" := by
  rw [jlookupD] at h ⊢
  cases hj : jlookup fs "sentiment" with
  | none =>
      rw [hj] at h
      simp at h
  | some v =>
      rw [hj] at h
      exact h

-- Membership after a Python dict update.
theorem dictUpsert_mem (m : List (Json × SaData)) (k : Json) (v : SaData)
    (p : Json × SaData) (h : p ∈ dictUpsert m k v) : p ∈ m ∨ p = (k, v) := by
  simp only [dictUpsert] at h
  split at h
  · obtain ⟨q, hq, hmap⟩ := List.mem_map.mp h
    by_cases hqk : q.1 = k
    · rw [if_pos hqk] at hmap
      exact Or.inr hmap.symm
    · rw [if_neg hqk] at hmap
      exact Or.inl (hmap ▸ hq)
  · rcases List.mem_append.mp h with h1 | h1
    · exact Or.inl h1
    · rw [List.mem_singleton] at h1
      exact Or.inr h1

-- Lifting a sentiment-record origin across one more scanned store entry.
theorem saOriginLift (e : String × Json) (rest : Store) (cid : Json)
    (d : SaData)
    (hex : ∃ k fs, (k, Json.obj fs) ∈ rest ∧
      strStartsWith "sentiment:" k = true ∧
      cid = jlookupD fs "comment_id" Json.null ∧
      d.sentiment = jlookupD fs "sentiment" Json.null) :
    ∃ k fs, (k, Json.obj fs) ∈ e :: rest ∧
      strStartsWith "sentiment:" k = true ∧
      cid = jlookupD fs "comment_id" Json.null ∧
      d.sentiment = jlookupD fs "sentiment" Json.null := by
  obtain ⟨k, fs, hm, h1, h2, h3⟩ := hex
  exact ⟨k, fs, List.mem_cons_of_mem _ hm, h1, h2, h3⟩

-- Every binding of the `sentiment_data` dict built by the standalone scan
-- originates in a `sentiment:*` record of the store (or was already in
-- the accumulator) and carries that record's `comment_id` and `sentiment`.
theorem saScanGo_origin :
    ∀ (db : Store) (m : List (Json × SaData)) (r : List Json)
      (cid : Json) (d : SaData), (cid, d) ∈ (saScanGo db m r).1 →
      (cid, d) ∈ m ∨ ∃ k fs, (k, Json.obj fs) ∈ db ∧
        strStartsWith "sentiment:" k = true ∧
        cid = jlookupD fs "comment_id" Json.null ∧
        d.sentiment = jlookupD fs "sentiment" Json.null := by
  intro db
  induction db with
  | nil =>
      intro m r cid d h
      exact Or.inl h
  | cons e rest ih =>
      intro m r cid d h
      obtain ⟨k, v⟩ := e
      simp only [saScanGo] at h
      by_cases hk : strStartsWith "sentiment:" k = true
      · rw [if_pos hk] at h
        split at h
        · rename_i fs
          by_cases hc : ((jlookupD fs "comment_id" Json.null).truthy ∧
              (jlookupD fs "sentiment" Json.null).truthy)
          · rw [if_pos hc] at h
            rcases ih _ _ _ _ h with hin | hex
            · rcases dictUpsert_mem _ _ _ _ hin with hin2 | heq
              · exact Or.inl hin2
              · right
                rw [Prod.mk.injEq] at heq
                refine ⟨k, fs, List.mem_cons_self _ _, hk, heq.1, ?_⟩
                rw [heq.2]
            · exact Or.inr (saOriginLift _ _ _ _ hex)
          · rw [if_neg hc] at h
            exact (ih _ _ _ _ h).imp id (saOriginLift _ _ _ _)
        · exact (ih _ _ _ _ h).imp id (saOriginLift _ _ _ _)
      · rw [if_neg hk] at h
        by_cases hk2 : strStartsWith "reply:" k = true
        · rw [if_pos hk2] at h
          repeat' split at h
          all_goals exact (ih _ _ _ _ h).imp id (saOriginLift _ _ _ _)
        · rw [if_neg hk2] at h
          exact (ih _ _ _ _ h).imp id (saOriginLift _ _ _ _)

-- The standalone reply key carries the `reply:` prefix.
theorem saReplyKey_starts (cid : Json) (ts : Nat) :
    strStartsWith "reply:" ("reply:" ++ pyStr cid ++ ":" ++ toString ts) =
      true := by
  simp [strStartsWith, String.toList, String.data_append, List.append_assoc]

-- The standalone cleanup only removes records.
theorem delete_standalone_subset (db : Store) (cid : Json) :
    ∀ p ∈ (delete_comment_from_db_standalone db cid).1, p ∈ db := by
  intro p hp
  exact (List.mem_filter.mp hp).1

-- The standalone remote post never adds a record (it only cleans up).
theorem sa_post_subset (env : SaEnv) (db : Store) (cid t : Json) :
    ∀ p ∈ (post_reply_to_facebook_standalone env db cid t).1, p ∈ db := by
  intro p hp
  simp only [post_reply_to_facebook_standalone] at hp
  repeat' split at hp
  all_goals first
  | exact hp
  | exact delete_standalone_subset db cid p hp

-- The standalone reply loop, when every dict entry for `cid0` carries a
-- negative sentiment: no reply record for `cid0` and no `sentiment:*`
-- record appears that was not already in the store.
theorem saLoop_origin (env : SaEnv) (replied : List Json) (maxR : Nat)
    (cid0 : Json) :
    ∀ (entries : List (Json × SaData)) (db : Store) (posted : Nat),
      (∀ d : SaData, (cid0, d) ∈ entries → d.sentiment = Json.str "negative") →
      ∀ p ∈ (saLoop env replied maxR entries db posted).1,
        (isReplyRecFor cid0 p = true ∨ strStartsWith "sentiment:" p.1 = true) →
        p ∈ db := by
  intro entries
  induction entries with
  | nil =>
      intro db posted _ p hp _
      exact hp
  | cons e rest ih =>
      intro db posted h p hp hrec
      obtain ⟨cid, d⟩ := e
      have hrest : ∀ d2 : SaData, (cid0, d2) ∈ rest →
          d2.sentiment = Json.str "negative" :=
        fun d2 hd2 => h d2 (List.mem_cons_of_mem _ hd2)
      simp only [saLoop] at hp
      by_cases h1 : maxR ≤ posted
      · rw [if_pos h1] at hp
        exact hp
      · rw [if_neg h1] at hp
        by_cases h2 : jmem cid replied = true
        · rw [if_pos h2] at hp
          exact ih db posted hrest p hp hrec
        · rw [if_neg h2] at hp
          by_cases h3 : ((d.sentiment = Json.str "positive" ∨
              d.sentiment = Json.str "neutral") = false)
          · rw [if_pos h3] at hp
            exact ih db posted hrest p hp hrec
          · rw [if_neg h3] at hp
            have hcidne : ¬(cid = cid0) := by
              intro hcc
              apply h3
              have hd := h d (by rw [hcc]; exact List.mem_cons_self _ _)
              rw [hd]
              decide
            by_cases h4 : d.message.truthy = false
            · rw [if_pos h4] at hp
              exact ih db posted hrest p hp hrec
            · rw [if_neg h4] at hp
              split at hp
              · exact ih db posted hrest p hp hrec
              · split at hp
                · exact ih db posted hrest p hp hrec
                · split at hp
                  · rename_i db1 hpost
                    have hp3 := ih _ _ hrest p hp hrec
                    rcases mem_set _ _ _ _ hp3 with heq | hin
                    · exfalso
                      subst heq
                      rcases hrec with hrec | hrec
                      · have hrec2 : (strStartsWith "reply:"
                            ("reply:" ++ pyStr cid ++ ":" ++ toString env.ts) &&
                            (cid == cid0)) = true := hrec
                        rw [Bool.and_eq_true] at hrec2
                        exact hcidne (eq_of_beq hrec2.2)
                      · have hrec2 : strStartsWith "sentiment:"
                            ("reply:" ++ pyStr cid ++ ":" ++ toString env.ts) =
                            true := hrec
                        rw [not_sentiment_starts_of_reply
                          (saReplyKey_starts cid env.ts)] at hrec2
                        exact Bool.noConfusion hrec2
                    · exact sa_post_subset env db cid _ p
                        (by rw [hpost]; exact hin)
                  · rename_i db1 hpost
                    exact sa_post_subset env db cid _ p
                      (by rw [hpost]; exact ih _ _ hrest p hp hrec)

-- One standalone `reply_to_comments` run on a store whose Sentiment
-- Records for `cid0` all say `negative`: same conclusion.
theorem sa_run_origin (env : SaEnv) (db : Store) (maxR : Nat) (cid0 : Json)
    (hneg : ∀ k fs, (k, Json.obj fs) ∈ db → strStartsWith "sentiment:" k = true →
      jlookupD fs "comment_id" Json.null = cid0 →
      jlookupD fs "sentiment" (Json.str "neutral") = Json.str "negative") :
    ∀ p ∈ (reply_to_comments_standalone env db maxR).1,
      (isReplyRecFor cid0 p = true ∨ strStartsWith "sentiment:" p.1 = true) →
      p ∈ db := by
  intro p hp hrec
  simp only [reply_to_comments_standalone] at hp
  split at hp
  · exact hp
  · rcases hsc : saScan db with ⟨m, replied⟩
    simp only [hsc] at hp
    refine saLoop_origin env replied maxR cid0 m db 0 ?_ p hp hrec
    intro d2 hd2
    have h1 : (saScan db).1 = m := by rw [hsc]
    have hd3 : (cid0, d2) ∈ (saScanGo db [] []).1 := by
      rw [show (saScanGo db [] []).1 = m from h1]
      exact hd2
    rcases saScanGo_origin db [] [] cid0 d2 hd3 with hin | ⟨k, fs, hm, hk, hc, hs⟩
    · cases hin
    · have hnegv := hneg k fs hm hk hc.symm
      rw [hs]
      exact jlookupD_negative fs hnegv

-- A vanished reply count is exactly the absence of reply records.
theorem replyCountFor_eq_zero (db : Store) (cid : Json) :
    replyCountFor db cid = 0 ↔ ∀ p ∈ db, ¬isReplyRecFor cid p = true := by
  rw [replyCountFor, List.length_eq_zero, List.filter_eq_nil_iff]

/-- C1: for a comment id whose stored Sentiment Records all say
`negative`, no invocation of the Reply Engine ever creates a Reply Record
for that id — candidate selection admits only stored sentiments that are
positive or neutral (the default for a missing label being `neutral`), and
the standalone variant's dict loop likewise skips entries whose sentiment
is not positive or neutral.  Starting from a store with no Reply Record
for the id, any number of `reply_to_comments` invocations (each with its
own clients, wall clock and reply bound, crashed runs included) and any
standalone `reply_to_comments` invocation still leave zero Reply Records
for the id. -/
theorem C1_no_reply_for_negative (cid0 : Json) (db : Store)
    (hneg : ∀ k fs, (k, Json.obj fs) ∈ db → strStartsWith "sentiment:" k = true →
      jlookupD fs "comment_id" Json.null = cid0 →
      jlookupD fs "sentiment" (Json.str "neutral") = Json.str "negative")
    (h0 : replyCountFor db cid0 = 0) :
    (∀ runs, replyCountFor (runEngine runs db) cid0 = 0) ∧
    ∀ (env : SaEnv) (maxR : Nat),
      replyCountFor (reply_to_comments_standalone env db maxR).1 cid0 = 0 := by
  constructor
  · intro runs
    rw [replyCountFor_eq_zero]
    intro p hp hrec
    exact (replyCountFor_eq_zero db cid0).mp h0 p
      (runEngine_no_reply_for cid0 runs db hneg p hp (Or.inl hrec)) hrec
  · intro env maxR
    rw [replyCountFor_eq_zero]
    intro p hp hrec
    exact (replyCountFor_eq_zero db cid0).mp h0 p
      (sa_run_origin env db maxR cid0 hneg p hp (Or.inl hrec)) hrec

/-- C1 (witness): a store holding one negative Sentiment Record and no
Reply Record: no sequence of engine runs and no standalone run creates a
Reply Record for that comment id. -/
theorem C1_witness :
    (∀ runs, replyCountFor (runEngine runs
      [("sentiment:kN", Json.obj [("comment_id", Json.str "cNeg"),
        ("sentiment", Json.str "negative"), ("message", Json.str "bad"),
        ("comment_key", Json.str "ckN")])]) (Json.str "cNeg") = 0) ∧
    ∀ (env : SaEnv) (maxR : Nat),
      replyCountFor (reply_to_comments_standalone env
        [("sentiment:kN", Json.obj [("comment_id", Json.str "cNeg"),
          ("sentiment", Json.str "negative"), ("message", Json.str "bad"),
          ("comment_key", Json.str "ckN")])] maxR).1 (Json.str "cNeg") = 0 :=
  C1_no_reply_for_negative (Json.str "cNeg")
    [("sentiment:kN", Json.obj [("comment_id", Json.str "cNeg"),
      ("sentiment", Json.str "negative"), ("message", Json.str "bad"),
      ("comment_key", Json.str "ckN")])]
    (by
      intro k fs hmem hk hcid
      simp only [List.mem_cons, List.not_mem_nil, or_false] at hmem
      rw [Prod.mk.injEq] at hmem
      obtain ⟨h1, h2⟩ := hmem
      injection h2 with h3
      subst h3
      decide)
    (by decide)

/-! ## C3 — at most one reply record per comment id -/

-- Counting as countP.
theorem replyCountFor_countP (db : Store) (cid : Json) :
    replyCountFor db cid = List.countP (isReplyRecFor cid) db := by
  rw [replyCountFor, List.countP_eq_length_filter]

theorem sentCountFor_countP (db : Store) (cid : Json) :
    sentCountFor db cid = List.countP (isSentRecFor cid) db := by
  rw [sentCountFor, List.countP_eq_length_filter]

-- An upsert whose record does not satisfy the predicate cannot raise the
-- count.
theorem countP_set_le (p : String × Json → Bool) (db : Store) (k : String)
    (v : Json) (hv : p (k, v) = false) :
    List.countP p (db.set k v) ≤ List.countP p db := by
  induction db with
  | nil =>
      show List.countP p [(k, v)] ≤ List.countP p []
      simp [List.countP_cons, hv]
  | cons q rest ih =>
      obtain ⟨k0, v0⟩ := q
      by_cases h0 : k0 = k
      · show List.countP p (if k0 = k then (k, v) :: rest else (k0, v0) :: Store.set rest k v) ≤ _
        rw [if_pos h0, List.countP_cons, List.countP_cons, hv,
          if_neg Bool.false_ne_true]
        omega
      · show List.countP p (if k0 = k then (k, v) :: rest else (k0, v0) :: Store.set rest k v) ≤ _
        rw [if_neg h0, List.countP_cons, List.countP_cons]
        exact Nat.add_le_add_right ih _

-- Any upsert raises the count by at most one.
theorem countP_set_le_succ (p : String × Json → Bool) (db : Store) (k : String)
    (v : Json) :
    List.countP p (db.set k v) ≤ List.countP p db + 1 := by
  induction db with
  | nil =>
      show List.countP p [(k, v)] ≤ List.countP p [] + 1
      rw [List.countP_cons]
      cases hp : p (k, v) <;> simp [hp]
  | cons q rest ih =>
      obtain ⟨k0, v0⟩ := q
      by_cases h0 : k0 = k
      · show List.countP p (if k0 = k then (k, v) :: rest else (k0, v0) :: Store.set rest k v) ≤ _
        rw [if_pos h0, List.countP_cons, List.countP_cons]
        cases hp : p (k, v) <;> cases hq : p (k0, v0) <;> simp [hp, hq] <;> omega
      · show List.countP p (if k0 = k then (k, v) :: rest else (k0, v0) :: Store.set rest k v) ≤ _
        rw [if_neg h0, List.countP_cons, List.countP_cons]
        omega

theorem replyCountFor_set_le (db : Store) (k : String) (v : Json) (cid : Json)
    (hv : isReplyRecFor cid (k, v) = false) :
    replyCountFor (db.set k v) cid ≤ replyCountFor db cid := by
  rw [replyCountFor_countP, replyCountFor_countP]
  exact countP_set_le _ db k v hv

theorem replyCountFor_set_le_succ (db : Store) (k : String) (v : Json)
    (cid : Json) :
    replyCountFor (db.set k v) cid ≤ replyCountFor db cid + 1 := by
  rw [replyCountFor_countP, replyCountFor_countP]
  exact countP_set_le_succ _ db k v

theorem sentCountFor_set_le (db : Store) (k : String) (v : Json) (cid : Json)
    (hv : isSentRecFor cid (k, v) = false) :
    sentCountFor (db.set k v) cid ≤ sentCountFor db cid := by
  rw [sentCountFor_countP, sentCountFor_countP]
  exact countP_set_le _ db k v hv

-- Cleanup cannot raise either count.
theorem replyCountFor_delete_le (db : Store) (cidd cid : Json) :
    replyCountFor (delete_comment_from_db db cidd).1 cid ≤
      replyCountFor db cid := by
  rw [replyCountFor_countP, replyCountFor_countP]
  cases cidd <;>
    first
    | exact Nat.le_refl _
    | exact List.Sublist.countP_le _ (List.filter_sublist db)

theorem sentCountFor_delete_le (db : Store) (cidd cid : Json) :
    sentCountFor (delete_comment_from_db db cidd).1 cid ≤
      sentCountFor db cid := by
  rw [sentCountFor_countP, sentCountFor_countP]
  cases cidd <;>
    first
    | exact Nat.le_refl _
    | exact List.Sublist.countP_le _ (List.filter_sublist db)

-- The stored reply record is a reply record exactly for the candidate's
-- own comment id.
theorem isReplyRecFor_storage (cid0 ck cidc : Json) (fs2 : List (String × Json))
    (hcid : jlookupD fs2 "comment_id" Json.null = cidc) :
    isReplyRecFor cid0 (replyKeyOf ck cidc, Json.obj fs2) = (cidc == cid0) := by
  have h1 : isReplyRecFor cid0 (replyKeyOf ck cidc, Json.obj fs2) =
      (strStartsWith "reply:" (replyKeyOf ck cidc) &&
        (jlookupD fs2 "comment_id" Json.null == cid0)) := rfl
  rw [h1, hcid, replyKeyOf_starts, Bool.true_and]

-- A reply-keyed record is never a sentiment record.
theorem isSentRecFor_replyKey (cid0 ck cidc : Json) (v : Json) :
    isSentRecFor cid0 (replyKeyOf ck cidc, v) = false := by
  have h1 : isSentRecFor cid0 (replyKeyOf ck cidc, v) =
      (strStartsWith "sentiment:" (replyKeyOf ck cidc) &&
        (match v with
         | Json.obj fs => jlookupD fs "comment_id" Json.null == cid0
         | _ => false)) := rfl
  rw [h1, not_sentiment_starts_of_reply (replyKeyOf_starts ck cidc),
    Bool.false_and]

-- One iteration raises the reply count for `cid` only when the candidate
-- itself targets `cid` (by at most one), and never raises the sentiment
-- count — whatever the outcome, crashes included.
theorem replyStep1_count (env : ReplyEnv) (c : Candidate) (db : Store)
    (st : RStats) (lg : List StepTag) (cid : Json) (out : StepOut)
    (hout : replyStep1 env c db st lg = out) :
    replyCountFor (StepOut.db out) cid ≤ replyCountFor db cid +
      (if (c.comment_id == cid) = true then 1 else 0) ∧
    sentCountFor (StepOut.db out) cid ≤ sentCountFor db cid := by
  simp only [replyStep1, store_reply_in_db] at hout
  split at hout
  · rw [← hout]
    exact ⟨Nat.le_add_right _ _, Nat.le_refl _⟩
  · rcases classify_obj_or_none env c.message with hcm | ⟨rifs, hcm⟩
    · simp only [hcm] at hout
      rw [← hout]
      exact ⟨Nat.le_add_right _ _, Nat.le_refl _⟩
    · simp only [hcm] at hout
      by_cases herr : jHasKey rifs "error" = true
      · rw [if_pos herr] at hout
        rw [← hout]
        exact ⟨Nat.le_add_right _ _, Nat.le_refl _⟩
      · rw [if_neg herr] at hout
        cases hpost : post_reply_to_facebook env c.comment_id
            (jlookupD rifs "reply" (Json.str "Thank you for your comment! 😊")) with
        | success rid =>
            simp only [hpost] at hout
            have hcid2 : jlookupD (objUnion [("comment_id", c.comment_id),
                ("comment_key", c.comment_key),
                ("original_message", c.message),
                ("author_name", c.author_name),
                ("sentiment", c.sentiment),
                ("reply_type", jlookupD rifs "type" (Json.str "general")),
                ("reply_text", jlookupD rifs "reply"
                  (Json.str "Thank you for your comment! 😊")),
                ("facebook_reply_id", rid),
                ("replied_at", Json.str env.now)] rifs) "comment_id"
                Json.null = c.comment_id := by
              rw [jlookupD, objUnion_lookup_head c.comment_id _ rifs
                (classify_no_cid env c.message rifs hcm)]
              rfl
            repeat' split at hout
            all_goals
              (rw [← hout]
               constructor
               · by_cases hcc : (c.comment_id == cid) = true
                 · rw [if_pos hcc]
                   exact replyCountFor_set_le_succ db _ _ cid
                 · rw [if_neg hcc]
                   exact replyCountFor_set_le db _ _ cid
                     (by rw [isReplyRecFor_storage cid c.comment_key
                           c.comment_id _ hcid2]
                         exact Bool.eq_false_iff.mpr hcc)
               · exact sentCountFor_set_le db _ _ cid
                   (isSentRecFor_replyKey cid c.comment_key c.comment_id _))
        | failure err =>
            simp only [hpost] at hout
            cases hnf : is_comment_not_found_error
                (Json.obj [("error", Json.obj [("message", err)])]) with
            | none =>
                simp only [hnf] at hout
                rw [← hout]
                exact ⟨Nat.le_add_right _ _, Nat.le_refl _⟩
            | some b =>
                simp only [hnf] at hout
                cases b with
                | false =>
                    rw [← hout]
                    exact ⟨Nat.le_add_right _ _, Nat.le_refl _⟩
                | true =>
                    rcases hdel : delete_comment_from_db db c.comment_id with
                      ⟨db3, del⟩
                    simp only [hdel] at hout
                    split at hout <;>
                      (rw [← hout]
                       constructor
                       · refine Nat.le_trans ?_ (Nat.le_add_right _ _)
                         have h2 := replyCountFor_delete_le db c.comment_id cid
                         rw [hdel] at h2
                         exact h2
                       · have h2 := sentCountFor_delete_le db c.comment_id cid
                         rw [hdel] at h2
                         exact h2)

-- A live reply record with a truthy comment id always lands that id in
-- the first-pass replied set.
theorem repliedSet_complete (cid : Json) (htr : cid.truthy) :
    ∀ (db : Store) (p : String × Json), p ∈ db → isReplyRecFor cid p = true →
      jmem cid (repliedSet db) = true := by
  intro db
  induction db with
  | nil =>
      intro p hp _
      cases hp
  | cons e rest ih =>
      intro p hp hrec
      obtain ⟨k, v⟩ := e
      rcases List.mem_cons.mp hp with heq | hp2
      · subst heq
        cases v with
        | obj fs =>
            have h2 : (strStartsWith "reply:" k &&
                (jlookupD fs "comment_id" Json.null == cid)) = true := hrec
            rw [Bool.and_eq_true] at h2
            have h3 := eq_of_beq h2.2
            simp only [repliedSet]
            rw [if_pos h2.1]
            show jmem cid
              ((if (jlookupD fs "comment_id" Json.null).truthy then
                  [jlookupD fs "comment_id" Json.null] else []) ++
                repliedSet rest) = true
            rw [h3, if_pos htr]
            simp [jmem]
        | null =>
            have h2 : (strStartsWith "reply:" k && false) = true := hrec
            rw [Bool.and_false] at h2
            exact Bool.noConfusion h2
        | bool b =>
            have h2 : (strStartsWith "reply:" k && false) = true := hrec
            rw [Bool.and_false] at h2
            exact Bool.noConfusion h2
        | num q =>
            have h2 : (strStartsWith "reply:" k && false) = true := hrec
            rw [Bool.and_false] at h2
            exact Bool.noConfusion h2
        | str s =>
            have h2 : (strStartsWith "reply:" k && false) = true := hrec
            rw [Bool.and_false] at h2
            exact Bool.noConfusion h2
        | arr xs =>
            have h2 : (strStartsWith "reply:" k && false) = true := hrec
            rw [Bool.and_false] at h2
            exact Bool.noConfusion h2
      · simp only [repliedSet, jmem, List.any_append]
        have h4 := ih p hp2 hrec
        rw [jmem] at h4
        rw [h4, Bool.or_true]

-- No candidate is built for an id the replied set already holds.
theorem candidates_none_replied (cid : Json) (replied : List Json)
    (hj : jmem cid replied = true) :
    ∀ db : Store, List.countP (fun c : Candidate => c.comment_id == cid)
      (candidatesOf replied db) = 0 := by
  intro db
  induction db with
  | nil => rfl
  | cons e rest ih =>
      obtain ⟨k, v⟩ := e
      simp only [candidatesOf]
      rw [List.countP_append, ih]
      by_cases hk : strStartsWith "sentiment:" k = true
      · rw [if_pos hk]
        split
        · rename_i fs
          by_cases hsel :
              ((jlookupD fs "sentiment" (Json.str "neutral") =
                  Json.str "positive" ∨
                jlookupD fs "sentiment" (Json.str "neutral") =
                  Json.str "neutral") ∧
               jmem (jlookupD fs "comment_id" Json.null) replied = false)
          · rw [if_pos hsel]
            cases hbe : ((jlookupD fs "comment_id" Json.null) == cid) with
            | true =>
                exfalso
                have h5 := hsel.2
                rw [eq_of_beq hbe, hj] at h5
                exact Bool.noConfusion h5
            | false => simp [hbe]
          · rw [if_neg hsel]
            rfl
        all_goals rfl
      · rw [if_neg hk]
        rfl

-- Each candidate targeting `cid` comes from its own Sentiment Record for
-- `cid`, so the batch holds at most `sentCountFor` of them.
theorem candidates_cid_le_sent (cid : Json) (replied : List Json) :
    ∀ db : Store, List.countP (fun c : Candidate => c.comment_id == cid)
      (candidatesOf replied db) ≤ List.countP (isSentRecFor cid) db := by
  intro db
  induction db with
  | nil => exact Nat.le_refl 0
  | cons e rest ih =>
      obtain ⟨k, v⟩ := e
      simp only [candidatesOf]
      rw [List.countP_append, List.countP_cons]
      by_cases hk : strStartsWith "sentiment:" k = true
      · rw [if_pos hk]
        split
        · rename_i fs
          by_cases hsel :
              ((jlookupD fs "sentiment" (Json.str "neutral") =
                  Json.str "positive" ∨
                jlookupD fs "sentiment" (Json.str "neutral") =
                  Json.str "neutral") ∧
               jmem (jlookupD fs "comment_id" Json.null) replied = false)
          · rw [if_pos hsel, List.countP_cons]
            cases hbe : ((jlookupD fs "comment_id" Json.null) == cid) with
            | true =>
                have hq : isSentRecFor cid (k, Json.obj fs) = true := by
                  have h1 : isSentRecFor cid (k, Json.obj fs) =
                      (strStartsWith "sentiment:" k &&
                        (jlookupD fs "comment_id" Json.null == cid)) := rfl
                  rw [h1, hk, hbe]
                  rfl
                rw [hq]
                simp [hbe]
                omega
            | false =>
                simp [hbe]
                omega
          · rw [if_neg hsel]
            simp
            omega
        · simp
          omega
      · rw [if_neg hk]
        simp
        omega

-- The loop never raises the sentiment count.
theorem replyLoop_sent_le (env : ReplyEnv) (cid : Json) :
    ∀ (cs : List Candidate) (db : Store) (st : RStats) (lg : List StepTag),
      sentCountFor (replyLoop env cs db st lg).1 cid ≤ sentCountFor db cid := by
  intro cs
  induction cs with
  | nil =>
      intro db st lg
      exact Nat.le_refl _
  | cons c rest ih =>
      intro db st lg
      rw [replyLoop_cons]
      cases hstep : replyStep1 env c db st lg with
      | crash db2 =>
          exact (replyStep1_count env c db st lg cid _ hstep).2
      | next db2 st2 lg2 =>
          exact Nat.le_trans (ih db2 st2 lg2)
            (replyStep1_count env c db st lg cid _ hstep).2

-- The loop keeps the reply count for `cid` at one or below as long as the
-- store count plus the number of still-pending candidates for `cid` is at
-- most one.
theorem replyLoop_reply_le (env : ReplyEnv) (cid : Json) :
    ∀ (cs : List Candidate) (db : Store) (st : RStats) (lg : List StepTag),
      replyCountFor db cid +
        List.countP (fun c : Candidate => c.comment_id == cid) cs ≤ 1 →
      replyCountFor (replyLoop env cs db st lg).1 cid ≤ 1 := by
  intro cs
  induction cs with
  | nil =>
      intro db st lg h
      exact Nat.le_trans (Nat.le_add_right _ _) h
  | cons c rest ih =>
      intro db st lg h
      rw [replyLoop_cons]
      simp only [List.countP_cons] at h
      cases hstep : replyStep1 env c db st lg with
      | crash db2 =>
          have hb : replyCountFor db2 cid ≤ replyCountFor db cid +
              (if (c.comment_id == cid) = true then 1 else 0) :=
            (replyStep1_count env c db st lg cid _ hstep).1
          show replyCountFor db2 cid ≤ 1
          by_cases hbc : (c.comment_id == cid) = true
          · rw [if_pos hbc] at h hb
            omega
          · rw [if_neg hbc] at h hb
            omega
      | next db2 st2 lg2 =>
          have hb : replyCountFor db2 cid ≤ replyCountFor db cid +
              (if (c.comment_id == cid) = true then 1 else 0) :=
            (replyStep1_count env c db st lg cid _ hstep).1
          show replyCountFor (replyLoop env rest db2 st2 lg2).1 cid ≤ 1
          refine ih db2 st2 lg2 ?_
          by_cases hbc : (c.comment_id == cid) = true
          · rw [if_pos hbc] at h hb
            omega
          · rw [if_neg hbc] at h hb
            omega

-- One run preserves “at most one reply record and at most one sentiment
-- record” for a truthy comment id.
theorem reply_run_at_most_one (env : ReplyEnv) (db : Store) (maxR : Nat)
    (cid : Json) (htr : cid.truthy)
    (hrep : replyCountFor db cid ≤ 1) (hsent : sentCountFor db cid ≤ 1) :
    replyCountFor (reply_to_comments env db maxR).1 cid ≤ 1 ∧
    sentCountFor (reply_to_comments env db maxR).1 cid ≤ 1 := by
  simp only [reply_to_comments]
  split
  · exact ⟨hrep, hsent⟩
  · constructor
    · refine replyLoop_reply_le env cid _ db _ [] ?_
      have htake : List.countP (fun c : Candidate => c.comment_id == cid)
          ((get_comments_to_reply db).take maxR) ≤
          List.countP (fun c : Candidate => c.comment_id == cid)
            (get_comments_to_reply db) :=
        List.Sublist.countP_le _ (List.take_sublist _ _)
      by_cases hzero : replyCountFor db cid = 0
      · have hle2 : List.countP (fun c : Candidate => c.comment_id == cid)
            (get_comments_to_reply db) ≤ List.countP (isSentRecFor cid) db := by
          rw [get_comments_to_reply]
          exact candidates_cid_le_sent cid (repliedSet db) db
        have hs2 : List.countP (isSentRecFor cid) db ≤ 1 := by
          rw [← sentCountFor_countP]
          exact hsent
        omega
      · have h1 : replyCountFor db cid = 1 := by omega
        have h2 : (db.filter (isReplyRecFor cid)) ≠ [] := by
          intro hnil
          rw [replyCountFor, hnil] at h1
          simp at h1
        obtain ⟨q, hq⟩ := List.exists_mem_of_ne_nil _ h2
        have hq2 := List.mem_filter.mp hq
        have hjj := repliedSet_complete cid htr db q hq2.1 hq2.2
        have hz2 : List.countP (fun c : Candidate => c.comment_id == cid)
            (get_comments_to_reply db) = 0 := by
          rw [get_comments_to_reply]
          exact candidates_none_replied cid (repliedSet db) hjj db
        omega
    · exact Nat.le_trans (replyLoop_sent_le env cid _ db _ []) hsent

-- Any number of runs, threading both invariants.
theorem runEngine_at_most_one (cid : Json) (htr : cid.truthy) :
    ∀ (runs : List (ReplyEnv × Nat)) (db : Store),
      sentCountFor db cid ≤ 1 → replyCountFor db cid ≤ 1 →
      replyCountFor (runEngine runs db) cid ≤ 1 := by
  intro runs
  induction runs with
  | nil =>
      intro db _ h
      exact h
  | cons r rest ih =>
      intro db hs hr
      obtain ⟨env, maxR⟩ := r
      simp only [runEngine]
      obtain ⟨h1, h2⟩ := reply_run_at_most_one env db maxR cid htr hr hs
      exact ih _ h2 h1

/-- C3 (counterexample): for a falsy comment id the invariant fails.  A
store holding exactly one Sentiment Record and one Reply Record for the
id `""` ends one run with two Reply Records for `""`: the first pass adds
ids to the replied set only when truthy (`if comment_id:`), so the
already-replied falsy id is not excluded and a second reply is posted and
stored under its own `reply:<commentKey>:<commentId>` key. -/
theorem C3_counterexample :
    sentCountFor
      [("reply:weird", Json.obj [("comment_id", Json.str "")]),
       ("sentiment:k", Json.obj [("comment_id", Json.str ""),
          ("sentiment", Json.str "positive"), ("comment_key", Json.str "ck"),
          ("message", Json.str "hi")])] (Json.str "") ≤ 1 ∧
    replyCountFor
      [("reply:weird", Json.obj [("comment_id", Json.str "")]),
       ("sentiment:k", Json.obj [("comment_id", Json.str ""),
          ("sentiment", Json.str "positive"), ("comment_key", Json.str "ck"),
          ("message", Json.str "hi")])] (Json.str "") ≤ 1 ∧
    replyCountFor
      (reply_to_comments
        ⟨true,
         fun _ => Except.ok (some (Json.obj [("type", Json.str "general"),
           ("reply", Json.str "ok")])),
         [[("password", Json.str "tok")]],
         fun _ _ => Except.ok (Json.obj [("id", Json.str "rid1")]),
         "T"⟩
        [("reply:weird", Json.obj [("comment_id", Json.str "")]),
         ("sentiment:k", Json.obj [("comment_id", Json.str ""),
            ("sentiment", Json.str "positive"), ("comment_key", Json.str "ck"),
            ("message", Json.str "hi")])] 10).1 (Json.str "") = 2 := by
  refine ⟨by decide, by decide, by decide⟩

/-- C3 (amended): for every TRUTHY comment id, starting from a store with
at most one live Sentiment Record and at most one live Reply Record for
that id, any number of Reply Engine invocations (each with its own
clients, wall clock and reply bound, crashed runs included) leaves at
most one Reply Record whose `comment_id` field is that id: the engine
builds the replied set from a full scan of `reply:*` records — admitting
only truthy ids — and selects at most one candidate per id (one per
Sentiment Record), replacing in place on re-store; for falsy ids the
exclusion fails (see the counterexample). -/
theorem C3_amended_at_most_one_reply (cid : Json) (htr : cid.truthy)
    (db : Store) (hsent : sentCountFor db cid ≤ 1)
    (hrep : replyCountFor db cid ≤ 1) :
    ∀ runs, replyCountFor (runEngine runs db) cid ≤ 1 :=
  fun runs => runEngine_at_most_one cid htr runs db hsent hrep

/-- C3 (witness): a store holding one positive Sentiment Record for a
truthy id and no Reply Record; two runs whose remote post succeeds (the
first stores a reply, the second must skip it) leave at most one Reply
Record for the id. -/
theorem C3_amended_witness :
    replyCountFor (runEngine
      [(⟨true,
       fun _ => Except.ok (some (Json.obj [("type", Json.str "general"),
         ("reply", Json.str "ok")])),
       [[("password", Json.str "tok")]],
       fun _ _ => Except.ok (Json.obj [("id", Json.str "rid1")]),
       "T"⟩, 10),
       (⟨true,
       fun _ => Except.ok (some (Json.obj [("type", Json.str "general"),
         ("reply", Json.str "ok")])),
       [[("password", Json.str "tok")]],
       fun _ _ => Except.ok (Json.obj [("id", Json.str "rid1")]),
       "T"⟩, 10)]
      [("sentiment:k1", Json.obj [("comment_id", Json.str "c1"),
        ("sentiment", Json.str "positive"), ("comment_key", Json.str "ck1"),
        ("message", Json.str "hi")])]) (Json.str "c1") ≤ 1 :=
  C3_amended_at_most_one_reply (Json.str "c1") (by decide)
    [("sentiment:k1", Json.obj [("comment_id", Json.str "c1"),
      ("sentiment", Json.str "positive"), ("comment_key", Json.str "ck1"),
      ("message", Json.str "hi")])]
    (by decide) (by decide)
    [(⟨true,
       fun _ => Except.ok (some (Json.obj [("type", Json.str "general"),
         ("reply", Json.str "ok")])),
       [[("password", Json.str "tok")]],
       fun _ _ => Except.ok (Json.obj [("id", Json.str "rid1")]),
       "T"⟩, 10),
     (⟨true,
       fun _ => Except.ok (some (Json.obj [("type", Json.str "general"),
         ("reply", Json.str "ok")])),
       [[("password", Json.str "tok")]],
       fun _ _ => Except.ok (Json.obj [("id", Json.str "rid1")]),
       "T"⟩, 10)]

end FacebookPipeline
